import Mathlib

/-!
Verification development for the TmVal time-value-of-money library.

The Python floats of the source are modelled as real numbers; `x ** y` on
floats becomes `Real.rpow`, `np.log`/`np.exp` become `Real.log`/`Real.exp`.
Optional (default-`None`) Python arguments are modelled as `Option ℝ`.
Functions that can raise are modelled as `Except String _`; an error value
records the exception the Python source would raise on that path.
-/

namespace TmVal

/-- Formal rate patterns: the canonical values of `FORMAL_PATTERNS` in
`constants.py`.  Alias strings (`'i'`, `'apy'`, ...) all map to one of these
seven canonical names, so patterns are modelled by this enumeration. -/
inductive Pattern where
  | effInt
  | effDisc
  | nomInt
  | nomDisc
  | force
  | simpInt
  | simpDisc
  deriving DecidableEq, Repr

namespace Pattern

/-- Membership in the `COMPOUNDS` list of `constants.py`. -/
def isCompound : Pattern → Bool
  | effInt => true
  | effDisc => true
  | nomInt => true
  | nomDisc => true
  | force => true
  | simpInt => false
  | simpDisc => false

/-- Membership in the `SIMPLES` list of `constants.py`. -/
def isSimple : Pattern → Bool
  | simpInt => true
  | simpDisc => true
  | _ => false

/-- Membership in the `NOMINALS` list of `constants.py`. -/
def isNominal : Pattern → Bool
  | nomInt => true
  | nomDisc => true
  | _ => false

/-- Membership in the `EFFECTIVES` list of `constants.py` (which also
contains the two simple patterns). -/
def isEffective : Pattern → Bool
  | effInt => true
  | effDisc => true
  | simpInt => true
  | simpDisc => true
  | _ => false

end Pattern

/-- The `Rate` value object of `rate.py`: a magnitude, a (formal) pattern and
the optional compounding frequency / effective interval. -/
structure Rate where
  rate : ℝ
  pattern : Pattern
  freq : Option ℝ
  interval : Option ℝ

/-- Well-formedness of a `Rate`, matching the constructor checks of
`rate.py` (`freq` required for nominal patterns, `interval` required for
effective/simple patterns) together with positivity of the supplied
frequency/interval and the magnitude ranges under which the conversion
arithmetic of `conversions.py` is free of division-by-zero and of logarithms
of non-positive numbers. -/
def Rate.Valid (r : Rate) : Prop :=
  match r.pattern with
  | .effInt => (∃ t, r.interval = some t ∧ 0 < t) ∧ r.freq = none ∧ 0 < 1 + r.rate
  | .effDisc => (∃ t, r.interval = some t ∧ 0 < t) ∧ r.freq = none ∧ r.rate < 1
  | .nomInt => (∃ m, r.freq = some m ∧ 0 < m ∧ 0 < 1 + r.rate / m) ∧ r.interval = none
  | .nomDisc => (∃ m, r.freq = some m ∧ 0 < m ∧ r.rate / m < 1) ∧ r.interval = none
  | .force => r.freq = none ∧ r.interval = none
  | .simpInt => (∃ t, r.interval = some t ∧ 0 < t) ∧ r.freq = none
  | .simpDisc => (∃ t, r.interval = some t ∧ 0 < t) ∧ r.freq = none

/-- The `RateTemplate` record of `conversions.py`, which stores the result of
a conversion before it is turned back into a `Rate`. -/
structure RateTemplate where
  rate : ℝ
  formal_pattern : Pattern
  freq : Option ℝ
  interval : Option ℝ

/-- conversions.py `discount_from_interest`: `d = i / (1 + i)`. -/
noncomputable def discount_from_interest (i : ℝ) : ℝ := i / (1 + i)

/-- conversions.py `interest_from_discount`: `i = d / (1 - d)`. -/
noncomputable def interest_from_discount (d : ℝ) : ℝ := d / (1 - d)

/-- conversions.py `effective_from_nominal_int`: `(1 + im/m)**m - 1`. -/
noncomputable def effective_from_nominal_int (im m : ℝ) : ℝ := (1 + im / m) ^ m - 1

/-- conversions.py `effective_from_nominal_disc`: `1 - (1 - dm/m)**m`. -/
noncomputable def effective_from_nominal_disc (dm m : ℝ) : ℝ := 1 - (1 - dm / m) ^ m

/-- conversions.py `eff_int_from_eff_int`: standardize to a yearly rate if
`old_t` is given, then rescale to `new_t` if given. -/
noncomputable def eff_int_from_eff_int (i : ℝ) (old_t new_t : Option ℝ) : RateTemplate :=
  let i1 := match old_t with
    | some t => (1 + i) ^ (1 / t) - 1
    | none => i
  let i2 := match new_t with
    | some t => (1 + i1) ^ t - 1
    | none => i1
  ⟨i2, .effInt, none, new_t⟩

/-- conversions.py `nom_int_from_eff_int`: `im = new_m*((1+i)**(1/new_m)-1)`
after standardizing `i` to a yearly rate when `old_t` is given.  The division
`1 / new_m` raises a ZeroDivisionError in Python when the requested frequency
is zero (`Rate.convert_rate` only checks `freq is None`, so `freq=0` reaches
this arithmetic). -/
noncomputable def nom_int_from_eff_int (i new_m : ℝ) (old_t : Option ℝ) :
    Except String RateTemplate :=
  let i1 := match old_t with
    | some t => (eff_int_from_eff_int i (some t) (some 1)).rate
    | none => i
  if new_m = 0 then .error "ZeroDivisionError: division by zero"
  else .ok ⟨new_m * ((1 + i1) ^ (1 / new_m) - 1), .nomInt, some new_m, none⟩

/-- conversions.py `eff_disc_from_eff_disc`:
`d1 = 1-(1-d)**(1/old_t)`, then `new_d = 1-(1-d1)**new_t`. -/
noncomputable def eff_disc_from_eff_disc (d old_t new_t : ℝ) : RateTemplate :=
  let d1 := 1 - (1 - d) ^ (1 / old_t)
  ⟨1 - (1 - d1) ^ new_t, .effDisc, none, some new_t⟩

/-- conversions.py `eff_disc_from_eff_int` in the case where both `old_t` and
`new_t` are supplied (as `Rate.convert_rate` always does; the source takes
`.rate` of intermediate values and would raise AttributeError if either were
`None`, see `any_from_eff_int` below). -/
noncomputable def eff_disc_from_eff_int (i old_t new_t : ℝ) : RateTemplate :=
  let i1 := (eff_int_from_eff_int i (some old_t) (some 1)).rate
  let d := discount_from_interest i1
  ⟨(eff_disc_from_eff_disc d 1 new_t).rate, .effDisc, none, some new_t⟩

/-- conversions.py `nom_disc_from_eff_disc`: standardize `d` to a yearly rate
when `old_t` is given, then `dm = new_m*(1-(1-d)**(1/new_m))`.  The division
`1 / new_m` raises a ZeroDivisionError in Python when the requested frequency
is zero. -/
noncomputable def nom_disc_from_eff_disc (d new_m : ℝ) (old_t : Option ℝ) :
    Except String RateTemplate :=
  let d1 := match old_t with
    | some t => (eff_disc_from_eff_disc d t 1).rate
    | none => d
  if new_m = 0 then .error "ZeroDivisionError: division by zero"
  else .ok ⟨new_m * (1 - (1 - d1) ^ (1 / new_m)), .nomDisc, some new_m, none⟩

/-- conversions.py `nom_disc_from_eff_int`: standardize, take the discount
rate, then delegate to `nom_disc_from_eff_disc` with no unit of time. -/
noncomputable def nom_disc_from_eff_int (i new_m : ℝ) (old_t : Option ℝ) :
    Except String RateTemplate :=
  let i1 := match old_t with
    | some t => (eff_int_from_eff_int i (some t) (some 1)).rate
    | none => i
  nom_disc_from_eff_disc (discount_from_interest i1) new_m none

/-- conversions.py `eff_int_from_eff_disc`: standardize `d` when `old_t` is
given, take the interest rate, rescale when `new_t` is given. -/
noncomputable def eff_int_from_eff_disc (d : ℝ) (old_t new_t : Option ℝ) : RateTemplate :=
  let d1 := match old_t with
    | some t => (eff_disc_from_eff_disc d t 1).rate
    | none => d
  let i := interest_from_discount d1
  let i2 := match new_t with
    | some t => (eff_int_from_eff_int i (some 1) (some t)).rate
    | none => i
  ⟨i2, .effInt, none, new_t⟩

/-- conversions.py `nom_int_from_eff_disc`.  BUG in the source: when `old_t`
is supplied, `d` is rebound to the `RateTemplate` returned by
`eff_disc_from_eff_disc` (the `.rate` access is missing), and the following
`interest_from_discount(d)` evaluates `d / (1 - d)` on a `RateTemplate`,
raising `TypeError: unsupported operand type(s) for -: 'int' and
'RateTemplate'`.  `Rate.convert_rate` always supplies `old_t` for an
Effective Discount source, so that conversion always raises. -/
noncomputable def nom_int_from_eff_disc (d : ℝ) (new_m old_t : Option ℝ) :
    Except String RateTemplate :=
  match old_t with
  | some _ => .error "TypeError: unsupported operand type(s) for -: 'int' and 'RateTemplate'"
  | none =>
    match new_m with
    | some m => nom_int_from_eff_int (interest_from_discount d) m none
    | none => .error "TypeError: unsupported operand type(s) for *: 'NoneType' and 'float'"

/-- conversions.py `eff_int_from_nom_int`: yearly effective rate first, then
rescale when `new_t` is given (otherwise a template with interval 1). -/
noncomputable def eff_int_from_nom_int (im m : ℝ) (new_t : Option ℝ) : RateTemplate :=
  let i := effective_from_nominal_int im m
  match new_t with
  | some t => eff_int_from_eff_int i (some 1) (some t)
  | none => ⟨i, .effInt, none, some 1⟩

/-- conversions.py `nom_int_from_nom_int`. -/
noncomputable def nom_int_from_nom_int (im m new_m : ℝ) : Except String RateTemplate :=
  nom_int_from_eff_int (effective_from_nominal_int im m) new_m none

/-- conversions.py `eff_disc_from_nom_int`. -/
noncomputable def eff_disc_from_nom_int (im m : ℝ) (new_t : Option ℝ) : RateTemplate :=
  let d := discount_from_interest (effective_from_nominal_int im m)
  match new_t with
  | some t => eff_disc_from_eff_disc d 1 t
  | none => ⟨d, .effDisc, none, some 1⟩

/-- conversions.py `nom_disc_from_nom_int`: the direct formula
`dp = (1 - (1+i)**(-1/p))*p`; a missing `new_m` defaults to `m`.  The
division `-1 / p` raises a ZeroDivisionError in Python when the requested
frequency is zero. -/
noncomputable def nom_disc_from_nom_int (im m : ℝ) (new_m : Option ℝ) :
    Except String RateTemplate :=
  let p := new_m.getD m
  let i := (1 + im / m) ^ m - 1
  if p = 0 then .error "ZeroDivisionError: division by zero"
  else .ok ⟨(1 - (1 + i) ^ (-1 / p)) * p, .nomDisc, some p, none⟩

/-- conversions.py `eff_int_from_nom_disc`. -/
noncomputable def eff_int_from_nom_disc (dm m : ℝ) (new_t : Option ℝ) : RateTemplate :=
  let i := interest_from_discount (effective_from_nominal_disc dm m)
  match new_t with
  | some t => eff_int_from_eff_int i (some 1) (some t)
  | none => ⟨i, .effInt, none, some 1⟩

/-- conversions.py `nom_int_from_nom_disc`: `i = (1-dp/p)**(-p) - 1`, then
`nom_int_from_eff_int`; a missing `new_m` defaults to `m`. -/
noncomputable def nom_int_from_nom_disc (dm m : ℝ) (new_m : Option ℝ) :
    Except String RateTemplate :=
  let p := new_m.getD m
  let i := (1 - dm / m) ^ (-m) - 1
  nom_int_from_eff_int i p none

/-- conversions.py `eff_disc_from_nom_disc`. -/
noncomputable def eff_disc_from_nom_disc (dm m : ℝ) (new_t : Option ℝ) : RateTemplate :=
  let d := effective_from_nominal_disc dm m
  match new_t with
  | some t => eff_disc_from_eff_disc d 1 t
  | none => ⟨d, .effDisc, none, some 1⟩

/-- conversions.py `nom_disc_from_nom_disc`. -/
noncomputable def nom_disc_from_nom_disc (dm m new_m : ℝ) : Except String RateTemplate :=
  nom_disc_from_eff_disc (effective_from_nominal_disc dm m) new_m none

/-- conversions.py `delta_from_eff_int`: `delta = log(1+i)` after
standardizing to a yearly rate. -/
noncomputable def delta_from_eff_int (i : ℝ) (old_t : Option ℝ) : RateTemplate :=
  ⟨Real.log (1 + (eff_int_from_eff_int i old_t (some 1)).rate), .force, none, none⟩

/-- conversions.py `delta_from_nom_int`. -/
noncomputable def delta_from_nom_int (im m : ℝ) : RateTemplate :=
  ⟨Real.log (1 + (eff_int_from_nom_int im m (some 1)).rate), .force, none, none⟩

/-- conversions.py `delta_from_eff_disc`. -/
noncomputable def delta_from_eff_disc (d : ℝ) (old_t : Option ℝ) : RateTemplate :=
  ⟨Real.log (1 + (eff_int_from_eff_disc d old_t (some 1)).rate), .force, none, none⟩

/-- conversions.py `delta_from_nom_disc`. -/
noncomputable def delta_from_nom_disc (dm m : ℝ) : RateTemplate :=
  ⟨Real.log (1 + (eff_int_from_nom_disc dm m (some 1)).rate), .force, none, none⟩

/-- conversions.py `eff_int_from_delta`: `i = exp(delta) - 1`; the source
tests `if new_t:` (Python truthiness), so both a missing and a zero `new_t`
fall through to a template with interval 1. -/
noncomputable def eff_int_from_delta (delta : ℝ) (new_t : Option ℝ) : RateTemplate :=
  let i := Real.exp delta - 1
  match new_t with
  | some t =>
    if t = 0 then ⟨i, .effInt, none, some 1⟩
    else eff_int_from_eff_int i (some 1) (some t)
  | none => ⟨i, .effInt, none, some 1⟩

/-- conversions.py `nom_int_from_delta`. -/
noncomputable def nom_int_from_delta (delta new_m : ℝ) : Except String RateTemplate :=
  nom_int_from_eff_int (eff_int_from_delta delta (some 1)).rate new_m (some 1)

/-- conversions.py `eff_disc_from_delta`. -/
noncomputable def eff_disc_from_delta (delta new_t : ℝ) : RateTemplate :=
  eff_disc_from_eff_int (eff_int_from_delta delta (some 1)).rate 1 new_t

/-- conversions.py `nom_disc_from_delta`. -/
noncomputable def nom_disc_from_delta (delta new_m : ℝ) : Except String RateTemplate :=
  nom_disc_from_eff_int (eff_int_from_delta delta (some 1)).rate new_m (some 1)

/-- conversions.py `any_from_eff_int`: dispatch on the target pattern.  A
`None` frequency/interval reaching the arithmetic of a callee raises in
Python (TypeError on `None` arithmetic, or AttributeError on `.rate` of a
float); those paths are modelled as errors here.  `Rate.convert_rate`
validates the arguments before dispatching, so they are unreachable from it. -/
noncomputable def any_from_eff_int (i : ℝ) (old_t : Option ℝ) (formal_pattern : Pattern)
    (freq interval : Option ℝ) : Except String RateTemplate :=
  match formal_pattern with
  | .effInt => .ok (eff_int_from_eff_int i old_t interval)
  | .effDisc =>
    match old_t, interval with
    | some t0, some t1 => .ok (eff_disc_from_eff_int i t0 t1)
    | _, _ => .error "AttributeError: 'float' object has no attribute 'rate'"
  | .nomInt =>
    match freq with
    | some m => nom_int_from_eff_int i m old_t
    | none => .error "TypeError: unsupported operand type(s) for *: 'NoneType' and 'float'"
  | .nomDisc =>
    match freq with
    | some m => nom_disc_from_eff_int i m old_t
    | none => .error "TypeError: unsupported operand type(s) for *: 'NoneType' and 'float'"
  | .force => .ok (delta_from_eff_int i old_t)
  | _ => .error "Invalid formal property specified"

/-- conversions.py `any_from_eff_disc`. -/
noncomputable def any_from_eff_disc (d : ℝ) (old_t : Option ℝ) (formal_pattern : Pattern)
    (freq interval : Option ℝ) : Except String RateTemplate :=
  match formal_pattern with
  | .effInt => .ok (eff_int_from_eff_disc d old_t interval)
  | .effDisc =>
    match old_t, interval with
    | some t0, some t1 => .ok (eff_disc_from_eff_disc d t0 t1)
    | _, _ => .error "TypeError: unsupported operand type(s) for /: 'int' and 'NoneType'"
  | .nomInt => nom_int_from_eff_disc d freq old_t
  | .nomDisc =>
    match freq with
    | some m => nom_disc_from_eff_disc d m old_t
    | none => .error "TypeError: unsupported operand type(s) for *: 'NoneType' and 'float'"
  | .force => .ok (delta_from_eff_disc d old_t)
  | _ => .error "Invalid formal property specified"

/-- conversions.py `any_from_nom_int`.  The source passes `self.freq` as `m`;
a `None` value would raise inside the callees' arithmetic. -/
noncomputable def any_from_nom_int (im : ℝ) (m : Option ℝ) (formal_pattern : Pattern)
    (freq interval : Option ℝ) : Except String RateTemplate :=
  match m with
  | none => .error "TypeError: unsupported operand type(s) for /: 'float' and 'NoneType'"
  | some mv =>
    match formal_pattern with
    | .effInt => .ok (eff_int_from_nom_int im mv interval)
    | .effDisc => .ok (eff_disc_from_nom_int im mv interval)
    | .nomInt =>
      match freq with
      | some m2 => nom_int_from_nom_int im mv m2
      | none => .error "TypeError: unsupported operand type(s) for *: 'NoneType' and 'float'"
    | .nomDisc => nom_disc_from_nom_int im mv freq
    | .force => .ok (delta_from_nom_int im mv)
    | _ => .error "Invalid formal property specified"

/-- conversions.py `any_from_nom_disc`. -/
noncomputable def any_from_nom_disc (dm : ℝ) (m : Option ℝ) (formal_pattern : Pattern)
    (freq interval : Option ℝ) : Except String RateTemplate :=
  match m with
  | none => .error "TypeError: unsupported operand type(s) for /: 'float' and 'NoneType'"
  | some mv =>
    match formal_pattern with
    | .effInt => .ok (eff_int_from_nom_disc dm mv interval)
    | .effDisc => .ok (eff_disc_from_nom_disc dm mv interval)
    | .nomInt => nom_int_from_nom_disc dm mv freq
    | .nomDisc =>
      match freq with
      | some m2 => nom_disc_from_nom_disc dm mv m2
      | none => .error "TypeError: unsupported operand type(s) for *: 'NoneType' and 'float'"
    | .force => .ok (delta_from_nom_disc dm mv)
    | _ => .error "Invalid formal property specified"

/-- conversions.py `any_from_delta`. -/
noncomputable def any_from_delta (delta : ℝ) (formal_pattern : Pattern)
    (freq interval : Option ℝ) : Except String RateTemplate :=
  match formal_pattern with
  | .effInt => .ok (eff_int_from_delta delta interval)
  | .effDisc =>
    match interval with
    | some t => .ok (eff_disc_from_delta delta t)
    | none => .error "AttributeError: 'float' object has no attribute 'rate'"
  | .nomInt =>
    match freq with
    | some m => nom_int_from_delta delta m
    | none => .error "TypeError: unsupported operand type(s) for *: 'NoneType' and 'float'"
  | .nomDisc =>
    match freq with
    | some m => nom_disc_from_delta delta m
    | none => .error "TypeError: unsupported operand type(s) for *: 'NoneType' and 'float'"
  | .force => .ok ⟨delta, .force, none, none⟩
  | _ => .error "Invalid formal property specified"

/-- conversions.py `any_from_simp_int`: `s_std = s / old_t` (raises on a
missing interval), then only a Simple Interest target is accepted. -/
noncomputable def any_from_simp_int (s : ℝ) (old_t : Option ℝ) (formal_pattern : Pattern)
    (interval : Option ℝ) : Except String RateTemplate :=
  match old_t with
  | none => .error "TypeError: unsupported operand type(s) for /: 'float' and 'NoneType'"
  | some t0 =>
    match formal_pattern with
    | .simpInt =>
      match interval with
      | some t1 => .ok ⟨s / t0 * t1, .simpInt, none, some t1⟩
      | none => .error "TypeError: unsupported operand type(s) for *: 'float' and 'NoneType'"
    | _ => .error "Invalid formal property specified"

/-- conversions.py `any_from_simp_disc`. -/
noncomputable def any_from_simp_disc (d : ℝ) (old_t : Option ℝ) (formal_pattern : Pattern)
    (interval : Option ℝ) : Except String RateTemplate :=
  match old_t with
  | none => .error "TypeError: unsupported operand type(s) for /: 'float' and 'NoneType'"
  | some t0 =>
    match formal_pattern with
    | .simpDisc =>
      match interval with
      | some t1 => .ok ⟨d / t0 * t1, .simpDisc, none, some t1⟩
      | none => .error "TypeError: unsupported operand type(s) for *: 'float' and 'NoneType'"
    | _ => .error "Invalid formal property specified"

/-- rate.py `Rate.convert_rate`, lines 537-608: dispatch on the source's
formal pattern, then construction of the resulting `Rate` from the returned
template (the trailing `Rate(...)` constructor call; its own validation never
fires on a template produced here since every template carries the
frequency/interval its pattern requires). -/
noncomputable def Rate.convert_dispatch (self : Rate) (pattern : Pattern)
    (freq interval : Option ℝ) : Except String Rate :=
  (match self.pattern with
    | .effInt => any_from_eff_int self.rate self.interval pattern freq interval
    | .effDisc => any_from_eff_disc self.rate self.interval pattern freq interval
    | .nomInt => any_from_nom_int self.rate self.freq pattern freq interval
    | .nomDisc => any_from_nom_disc self.rate self.freq pattern freq interval
    | .force => any_from_delta self.rate pattern freq interval
    | .simpInt => any_from_simp_int self.rate self.interval pattern interval
    | .simpDisc => any_from_simp_disc self.rate self.interval pattern interval).map
    fun (template : RateTemplate) =>
      ⟨template.rate, template.formal_pattern, template.freq, template.interval⟩

/-- rate.py `Rate.convert_rate`, lines 504-535: validation of the requested
conversion (family restrictions, then the frequency/interval combination the
target pattern accepts), followed by the dispatch above.  Target patterns are
modelled by the canonical `Pattern` enumeration (the claim universe of
"recognized" targets). -/
noncomputable def Rate.convert_rate (self : Rate) (pattern : Pattern)
    (freq interval : Option ℝ) : Except String Rate :=
  if !self.pattern.isCompound && pattern.isCompound then
    .error "Simple interest/discount rate cannot be converted to compound patterns."
  else if self.pattern.isCompound && pattern.isSimple then
    .error "Compound rate cannot be converted to simple patterns."
  else if (self.pattern == .simpInt && pattern == .simpDisc) ||
      (self.pattern == .simpDisc && pattern == .simpInt) then
    .error "Cannot convert between simple interest and simple discount."
  else if pattern == .effInt || pattern == .effDisc then
    if interval.isNone then
      .error "Must provide an interval for conversions to effective rates."
    else if !freq.isNone then
      .error "Frequency only valid for conversions to nominal rates."
    else self.convert_dispatch pattern freq interval
  else if pattern == .nomInt || pattern == .nomDisc then
    if freq.isNone then
      .error "Must provide compounding frequency for conversions to nominal rates."
    else if !interval.isNone then
      .error "Interval only valid for conversions to effective rates."
    else self.convert_dispatch pattern freq interval
  else if pattern == .simpInt || pattern == .simpDisc then
    if interval.isNone then
      .error "Must provide an interval for conversions to effective rates."
    else if !freq.isNone then
      .error "Frequency only valid for conversions to nominal rates."
    else self.convert_dispatch pattern freq interval
  else
    if !freq.isNone || !interval.isNone then
      .error "Frequency or interval parameters are invalid for conversions to force of interest."
    else self.convert_dispatch pattern freq interval

/-- rate.py `Rate.__eq__` restricted to a `Rate` argument (the `None` and
`float` branches of the source are not part of the claims).  When one rate is
compound and the other simple, no branch matches and the Python function
falls off the end, implicitly returning `None`; that is the `.ok none`
value here.  An exception inside `convert_rate` propagates. -/
noncomputable def Rate.rate_eq (self other : Rate) : Except String (Option Bool) :=
  if self.pattern.isCompound && other.pattern.isCompound then do
    let s ← self.convert_rate .effInt none (some 1)
    let o ← other.convert_rate .effInt none (some 1)
    pure (some (if s.rate = o.rate then true else false))
  else if self.pattern.isSimple && other.pattern.isSimple then do
    let s ← self.convert_rate .simpInt none (some 1)
    let o ← other.convert_rate .simpInt none (some 1)
    pure (some (if s.rate = o.rate then true else false))
  else
    .ok none

/-- rate.py `Rate.__gt__` restricted to a `Rate` argument: both-compound and
both-simple pairs are standardized and compared; every other pair raises
`TypeError`. -/
noncomputable def Rate.rate_gt (self other : Rate) : Except String Bool :=
  if self.pattern.isCompound && other.pattern.isCompound then do
    let s ← self.convert_rate .effInt none (some 1)
    let o ← other.convert_rate .effInt none (some 1)
    pure (if o.rate < s.rate then true else false)
  else if self.pattern.isSimple && other.pattern.isSimple then do
    let s ← self.convert_rate .simpInt none (some 1)
    let o ← other.convert_rate .simpInt none (some 1)
    pure (if o.rate < s.rate then true else false)
  else
    .error "> only supported if both rates are compound or simple."

/-- rate.py `Rate.__ge__` restricted to a `Rate` argument. -/
noncomputable def Rate.rate_ge (self other : Rate) : Except String Bool :=
  if self.pattern.isCompound && other.pattern.isCompound then do
    let s ← self.convert_rate .effInt none (some 1)
    let o ← other.convert_rate .effInt none (some 1)
    pure (if o.rate ≤ s.rate then true else false)
  else if self.pattern.isSimple && other.pattern.isSimple then do
    let s ← self.convert_rate .simpInt none (some 1)
    let o ← other.convert_rate .simpInt none (some 1)
    pure (if o.rate ≤ s.rate then true else false)
  else
    .error "> only supported if both rates are compound or simple."

/-- rate.py `Rate.__lt__` restricted to a `Rate` argument. -/
noncomputable def Rate.rate_lt (self other : Rate) : Except String Bool :=
  if self.pattern.isCompound && other.pattern.isCompound then do
    let s ← self.convert_rate .effInt none (some 1)
    let o ← other.convert_rate .effInt none (some 1)
    pure (if s.rate < o.rate then true else false)
  else if self.pattern.isSimple && other.pattern.isSimple then do
    let s ← self.convert_rate .simpInt none (some 1)
    let o ← other.convert_rate .simpInt none (some 1)
    pure (if s.rate < o.rate then true else false)
  else
    .error "> only supported if both rates are compound or simple."

/-- rate.py `Rate.__le__` restricted to a `Rate` argument. -/
noncomputable def Rate.rate_le (self other : Rate) : Except String Bool :=
  if self.pattern.isCompound && other.pattern.isCompound then do
    let s ← self.convert_rate .effInt none (some 1)
    let o ← other.convert_rate .effInt none (some 1)
    pure (if s.rate ≤ o.rate then true else false)
  else if self.pattern.isSimple && other.pattern.isSimple then do
    let s ← self.convert_rate .simpInt none (some 1)
    let o ← other.convert_rate .simpInt none (some 1)
    pure (if s.rate ≤ o.rate then true else false)
  else
    .error "> only supported if both rates are compound or simple."

/-- The exact argument combination that each target pattern of
`Rate.convert_rate` accepts: the parameter the pattern requires must be
present and the other one absent. -/
def okParams (pt : Pattern) (freq interval : Option ℝ) : Prop :=
  match pt with
  | .effInt => interval ≠ none ∧ freq = none
  | .effDisc => interval ≠ none ∧ freq = none
  | .simpInt => interval ≠ none ∧ freq = none
  | .simpDisc => interval ≠ none ∧ freq = none
  | .nomInt => freq ≠ none ∧ interval = none
  | .nomDisc => freq ≠ none ∧ interval = none
  | .force => freq = none ∧ interval = none

lemma except_map_ite {α β : Type} (c : Prop) [Decidable c] (x y : Except String α)
    (f : α → β) :
    Except.map f (if c then x else y) = if c then Except.map f x else Except.map f y := by
  split <;> rfl

lemma except_isOk_ite {α : Type} (c : Prop) [Decidable c] (x y : Except String α) :
    (if c then x else y).isOk = if c then x.isOk else y.isOk := by
  split <;> rfl

lemma except_isOk_ok {α : Type} (a : α) : (Except.ok a : Except String α).isOk = true := rfl

lemma except_isOk_error {α : Type} (e : String) :
    (Except.error e : Except String α).isOk = false := rfl

lemma except_map_ok {α β : Type} (f : α → β) (a : α) :
    Except.map f (Except.ok a : Except String α) = .ok (f a) := rfl

lemma except_map_error {α β : Type} (f : α → β) (e : String) :
    Except.map f (Except.error e : Except String α) = .error e := rfl

lemma ite_false_true (c : Prop) [Decidable c] :
    ((if c then false else true) = true) ↔ ¬c := by
  split <;> simp_all

lemma Pattern.isCompound_eq_false_of_isSimple {p : Pattern} (h : p.isSimple = true) :
    p.isCompound = false := by
  cases p <;> simp_all [Pattern.isSimple, Pattern.isCompound]

lemma Pattern.isSimple_eq_false_of_isCompound {p : Pattern} (h : p.isCompound = true) :
    p.isSimple = false := by
  cases p <;> simp_all [Pattern.isSimple, Pattern.isCompound]

/-- Claim C1 (code bug).  The claimed compound round trip
`r.convert_rate(P).convert_rate(Q).convert_rate(r.pattern)` cannot complete
whenever a step converts an Effective Discount source to a Nominal Interest
target: `nom_int_from_eff_disc` in conversions.py rebinds `d` to a
`RateTemplate` without taking `.rate` and then computes `d / (1 - d)` on it,
raising a TypeError.  Here the chain starting from the annual effective rate
0.05 with P = Effective Discount (interval 1) and Q = Nominal Interest
(frequency 2) stops with that error at the second conversion. -/
theorem claim_C1 :
    ((Rate.convert_rate ⟨(0.05 : ℝ), .effInt, none, some 1⟩ .effDisc none (some 1)).bind
      (fun r1 => r1.convert_rate .nomInt (some 2) none)) =
    .error "TypeError: unsupported operand type(s) for -: 'int' and 'RateTemplate'" := rfl

/-- Claim C6 (amended).  For a well-formed source rate, `convert_rate`
succeeds exactly when: the conversion does not cross the simple/compound
boundary, is not between Simple Interest and Simple Discount, the target
pattern is supplied with exactly the frequency/interval combination it
requires (the required one present and the other absent — supplying an extra
parameter or omitting a required interval also raises, beyond the cases the
claim lists), the conversion is not Effective Discount → Nominal Interest
(which raises a TypeError, see `claim_C1`), and a nominal target is not
requested with frequency zero (the validation only checks `freq is None`, so
`freq=0` passes it and raises a ZeroDivisionError at `1/new_m` inside the
conversion arithmetic). -/
theorem claim_C6 (r : Rate) (hr : r.Valid) (pt : Pattern) (freq interval : Option ℝ) :
    (r.convert_rate pt freq interval).isOk = true ↔
      (¬(r.pattern.isSimple = true ∧ pt.isCompound = true) ∧
       ¬(r.pattern.isCompound = true ∧ pt.isSimple = true) ∧
       ¬(r.pattern = .simpInt ∧ pt = .simpDisc) ∧
       ¬(r.pattern = .simpDisc ∧ pt = .simpInt) ∧
       okParams pt freq interval ∧
       ¬(r.pattern = .effDisc ∧ pt = .nomInt) ∧
       ¬(pt.isNominal = true ∧ freq = some 0)) := by
  obtain ⟨x, ps, rf, ri⟩ := r
  cases ps <;> simp only [Rate.Valid] at hr
  case effInt =>
    obtain ⟨⟨t, ht, htp⟩, hf, hx⟩ := hr
    subst ht; subst hf
    cases pt <;> cases freq <;> cases interval <;>
      simp [Rate.convert_rate, Rate.convert_dispatch, Pattern.isCompound, Pattern.isSimple,
        Pattern.isNominal, okParams, any_from_eff_int, nom_int_from_eff_int,
        nom_disc_from_eff_int, nom_disc_from_eff_disc, except_map_ite, except_isOk_ite, except_isOk_ok,
        except_isOk_error, except_map_ok, except_map_error, ite_false_true, beq_iff_eq]
  case effDisc =>
    obtain ⟨⟨t, ht, htp⟩, hf, hx⟩ := hr
    subst ht; subst hf
    cases pt <;> cases freq <;> cases interval <;>
      simp [Rate.convert_rate, Rate.convert_dispatch, Pattern.isCompound, Pattern.isSimple,
        Pattern.isNominal, okParams, any_from_eff_disc, nom_int_from_eff_disc,
        nom_disc_from_eff_disc, except_map_ite, except_isOk_ite, except_isOk_ok,
        except_isOk_error, except_map_ok, except_map_error, ite_false_true, beq_iff_eq]
  case nomInt =>
    obtain ⟨⟨m, hm, hmp, hx⟩, hi⟩ := hr
    subst hm; subst hi
    cases pt <;> cases freq <;> cases interval <;>
      simp [Rate.convert_rate, Rate.convert_dispatch, Pattern.isCompound, Pattern.isSimple,
        Pattern.isNominal, okParams, any_from_nom_int, nom_int_from_nom_int,
        nom_int_from_eff_int, nom_disc_from_nom_int, except_map_ite, except_isOk_ite, except_isOk_ok,
        except_isOk_error, except_map_ok, except_map_error, ite_false_true, beq_iff_eq]
  case nomDisc =>
    obtain ⟨⟨m, hm, hmp, hx⟩, hi⟩ := hr
    subst hm; subst hi
    cases pt <;> cases freq <;> cases interval <;>
      simp [Rate.convert_rate, Rate.convert_dispatch, Pattern.isCompound, Pattern.isSimple,
        Pattern.isNominal, okParams, any_from_nom_disc, nom_int_from_nom_disc,
        nom_int_from_eff_int, nom_disc_from_nom_disc, nom_disc_from_eff_disc, except_map_ite, except_isOk_ite, except_isOk_ok,
        except_isOk_error, except_map_ok, except_map_error, ite_false_true, beq_iff_eq]
  case force =>
    obtain ⟨hf, hi⟩ := hr
    subst hf; subst hi
    cases pt <;> cases freq <;> cases interval <;>
      simp [Rate.convert_rate, Rate.convert_dispatch, Pattern.isCompound, Pattern.isSimple,
        Pattern.isNominal, okParams, any_from_delta, nom_int_from_delta, nom_disc_from_delta,
        nom_int_from_eff_int, nom_disc_from_eff_int, nom_disc_from_eff_disc, except_map_ite, except_isOk_ite, except_isOk_ok,
        except_isOk_error, except_map_ok, except_map_error, ite_false_true, beq_iff_eq]
  case simpInt =>
    obtain ⟨⟨t, ht, htp⟩, hf⟩ := hr
    subst ht; subst hf
    cases pt <;> cases freq <;> cases interval <;>
      simp [Rate.convert_rate, Rate.convert_dispatch, Pattern.isCompound, Pattern.isSimple,
        Pattern.isNominal, okParams, any_from_simp_int, except_map_ite, except_isOk_ite, except_isOk_ok,
        except_isOk_error, except_map_ok, except_map_error, ite_false_true, beq_iff_eq]
  case simpDisc =>
    obtain ⟨⟨t, ht, htp⟩, hf⟩ := hr
    subst ht; subst hf
    cases pt <;> cases freq <;> cases interval <;>
      simp [Rate.convert_rate, Rate.convert_dispatch, Pattern.isCompound, Pattern.isSimple,
        Pattern.isNominal, okParams, any_from_simp_disc, except_map_ite, except_isOk_ite, except_isOk_ok,
        except_isOk_error, except_map_ok, except_map_error, ite_false_true, beq_iff_eq]

/-- Claim C6 counterexample to the claim as stated: the target Effective
Interest is recognized, its required interval is supplied, and none of the
claim's enumerated error cases applies (both patterns are compound, the
target is neither Force of Interest nor nominal), yet `convert_rate` raises
because a frequency was also supplied. -/
theorem claim_C6_counterexample :
    Rate.convert_rate ⟨(0.05 : ℝ), .effInt, none, some 1⟩ .effInt (some 2) (some 1) =
      .error "Frequency only valid for conversions to nominal rates." := rfl

/-- Claim C6 witness: the amended characterization applied to the concrete
conversion of a nominal interest rate (4% compounded twice a year) to Force
of Interest, which succeeds. -/
theorem claim_C6_witness :
    (Rate.convert_rate ⟨(0.04 : ℝ), .nomInt, some 2, none⟩ .force none none).isOk = true :=
  (claim_C6 ⟨(0.04 : ℝ), .nomInt, some 2, none⟩
      ⟨⟨2, rfl, by norm_num, by norm_num⟩, rfl⟩ .force none none).mpr
    (by simp [okParams, Pattern.isCompound, Pattern.isSimple, Pattern.isNominal])

/-- Claim C10.  For a compound-pattern rate and a simple-pattern rate (in
either order), `__eq__` falls through all branches and implicitly returns
`None` (falsy) without raising, while `__gt__`, `__ge__`, `__lt__` and
`__le__` all raise a TypeError. -/
theorem claim_C10 (a b : Rate) (ha : a.pattern.isCompound = true)
    (hb : b.pattern.isSimple = true) :
    a.rate_eq b = .ok none ∧ b.rate_eq a = .ok none ∧
    a.rate_gt b = .error "> only supported if both rates are compound or simple." ∧
    b.rate_gt a = .error "> only supported if both rates are compound or simple." ∧
    a.rate_ge b = .error "> only supported if both rates are compound or simple." ∧
    b.rate_ge a = .error "> only supported if both rates are compound or simple." ∧
    a.rate_lt b = .error "> only supported if both rates are compound or simple." ∧
    b.rate_lt a = .error "> only supported if both rates are compound or simple." ∧
    a.rate_le b = .error "> only supported if both rates are compound or simple." ∧
    b.rate_le a = .error "> only supported if both rates are compound or simple." := by
  have hbc := Pattern.isCompound_eq_false_of_isSimple hb
  have has := Pattern.isSimple_eq_false_of_isCompound ha
  refine ⟨?_, ?_, ?_, ?_, ?_, ?_, ?_, ?_, ?_, ?_⟩ <;>
    simp [Rate.rate_eq, Rate.rate_gt, Rate.rate_ge, Rate.rate_lt, Rate.rate_le,
      ha, hb, hbc, has]

/-- Claim C10 witness: equality of a 5% annual effective rate with a 3%
simple interest rate silently returns the falsy `None`. -/
theorem claim_C10_witness :
    Rate.rate_eq ⟨(0.05 : ℝ), .effInt, none, some 1⟩ ⟨(0.03 : ℝ), .simpInt, none, some 1⟩ =
      .ok none :=
  (claim_C10 ⟨(0.05 : ℝ), .effInt, none, some 1⟩ ⟨(0.03 : ℝ), .simpInt, none, some 1⟩
    rfl rfl).1

/-- The `Accumulation` growth object of growth.py: a value-of-time function
for one unit of principal (`Accumulation.val`). -/
structure Accumulation where
  val : ℝ → ℝ

/-- growth.py `Accumulation.discount_func`: `fv / self.val(t)` (a missing
`fv` defaults to 1 in the source; callers here always pass it). -/
noncomputable def Accumulation.discount_func (acc : Accumulation) (t fv : ℝ) : ℝ :=
  fv / acc.val t

/-- growth.py `CompoundAcc.acc_func`: the compound accumulation function
`(1 + i)**t`.  This is also the accumulation a `Payments` object binds when
given a level compound rate: `standardize_acc` (referenced from growth.py
but not present under src/) standardizes the growth object to the canonical
compound form, annual effective interest `i`, per the spec's data model. -/
noncomputable def CompoundAcc (i : ℝ) : Accumulation :=
  ⟨fun t => (1 + i) ^ t⟩

/-- The `Payments` object of value.py: parallel amount/time sequences and the
bound growth object (here already resolved to an accumulation function). -/
structure Payments where
  amounts : List ℝ
  times : List ℝ
  gr : Accumulation

/-- value.py `Payments.npv`:
`sum([acc.discount_func(t=t, fv=fv) for t, fv in zip(self.times, self.amounts)])`. -/
noncomputable def Payments.npv (p : Payments) : ℝ :=
  ((p.times.zip p.amounts).map fun tv => p.gr.discount_func tv.1 tv.2).sum

lemma npv_zip_sum (acc : Accumulation) :
    ∀ (amounts times : List ℝ), amounts.length = times.length →
      (Payments.mk amounts times acc).npv =
        ∑ k ∈ Finset.range amounts.length,
          amounts.getD k 0 * (1 / acc.val (times.getD k 0))
  | [], [], _ => by simp [Payments.npv]
  | [], t :: ts, h => by simp at h
  | a :: as, [], h => by simp at h
  | a :: as, t :: ts, h => by
    have hlen : as.length = ts.length := by simpa using h
    have ih := npv_zip_sum acc as ts hlen
    simp only [Payments.npv, List.zip_cons_cons, List.map_cons, List.sum_cons,
      List.length_cons] at ih ⊢
    rw [Finset.sum_range_succ']
    simp only [List.getD_cons_succ, List.getD_cons_zero]
    rw [← ih]
    ring_nf
    simp [Accumulation.discount_func, div_eq_mul_inv]
    ring

/-- Claim C2.  For equal-length amount/time lists bound to a compound
accumulation with accumulation function `a(t) = (1+i)^t`, `npv()` returns
exactly the sum over all indices `k` of `amounts[k] * (1 / a(times[k]))`. -/
theorem claim_C2 (amounts times : List ℝ) (i : ℝ) (h : amounts.length = times.length) :
    (Payments.mk amounts times (CompoundAcc i)).npv =
      ∑ k ∈ Finset.range amounts.length,
        amounts.getD k 0 * (1 / (CompoundAcc i).val (times.getD k 0)) :=
  npv_zip_sum (CompoundAcc i) amounts times h

/-- Claim C2 witness: a two-payment stream under the compound accumulation
with i = 1. -/
theorem claim_C2_witness :
    ([(100 : ℝ), -50].length = [(1 : ℝ), 2].length) ∧
    (Payments.mk [(100 : ℝ), -50] [(1 : ℝ), 2] (CompoundAcc 1)).npv =
      ∑ k ∈ Finset.range [(100 : ℝ), -50].length,
        [(100 : ℝ), -50].getD k 0 * (1 / (CompoundAcc 1).val ([(1 : ℝ), 2].getD k 0)) :=
  ⟨rfl, claim_C2 [(100 : ℝ), -50] [(1 : ℝ), 2] 1 rfl⟩

/-- value.py `Payments.group_payments`, restricted to integer payment times
(the only case in which `Payments.irr` takes its exact polynomial branch,
since `is_poly` demands every time be a Python `int`): the summed payment
amount at time `t`. -/
noncomputable def groupedAmount (times : List ℕ) (amounts : List ℝ) (t : ℕ) : ℝ :=
  (((times.zip amounts).filter fun p => p.1 = t).map fun p => p.2).sum

/-- value.py `Payments.irr`: `degree = max(payments_dict, key=int)`, the
largest payment time. -/
def eqDegree (times : List ℕ) : ℕ := times.foldr max 0

/-- value.py `Payments.irr`, polynomial branch: the equation of value as the
polynomial `np.roots` receives.  `coefficients[k]` is the grouped amount at
time `k` (zero when no payment falls there) and `np.roots` reads the list
with the leading coefficient first, so the polynomial evaluated at `x` is
`Σ_k coefficients[k] * x^(degree - k)`. -/
noncomputable def eqValuePoly (times : List ℕ) (amounts : List ℝ) (x : ℝ) : ℝ :=
  ∑ k ∈ Finset.range (eqDegree times + 1),
    groupedAmount times amounts k * x ^ (eqDegree times - k)

/-- value.py `Payments.irr`, polynomial branch: `np.roots` returns every
(complex) root of the equation-of-value polynomial, the real ones are kept
(`roots[np.isreal(roots)]`) and shifted down by one (`np.real(x) - 1`), so
the returned list consists of the real numbers `i` with `1 + i` a root. -/
def irrSet (times : List ℕ) (amounts : List ℝ) : Set ℝ :=
  fun i => eqValuePoly times amounts (1 + i) = 0

lemma groupedAmount_pair (n : ℕ) (hn : n ≠ 0) (a b : ℝ) (k : ℕ) :
    groupedAmount [0, n] [a, b] k = if k = 0 then a else if k = n then b else 0 := by
  simp only [groupedAmount, List.zip_cons_cons, List.zip_nil_right]
  by_cases h0 : k = 0
  · subst h0
    simp [List.filter, hn]
  · by_cases hkn : k = n
    · subst hkn
      simp [List.filter, Ne.symm h0, hn]
    · have h0x : ¬(0 = k) := fun h => h0 h.symm
      have hknx : ¬(n = k) := fun h => hkn h.symm
      simp [List.filter, h0x, hknx, h0, hkn]

lemma eqDegree_pair (n : ℕ) : eqDegree [0, n] = n := by
  simp [eqDegree]

lemma eqValuePoly_pair (n : ℕ) (hn : n ≠ 0) (a b x : ℝ) :
    eqValuePoly [0, n] [a, b] x = a * x ^ n + b := by
  unfold eqValuePoly
  rw [eqDegree_pair]
  have hsplit : ∀ k ∈ Finset.range (n + 1),
      groupedAmount [0, n] [a, b] k * x ^ (n - k) =
        (if k = 0 then a * x ^ n else 0) + (if k = n then b else 0) := by
    intro k _
    rw [groupedAmount_pair n hn a b k]
    by_cases h0 : k = 0
    · subst h0
      simp [Ne.symm hn]
    · by_cases hkn : k = n
      · subst hkn
        simp [h0]
      · simp [h0, hkn]
  rw [Finset.sum_congr rfl hsplit, Finset.sum_add_distrib]
  rw [Finset.sum_ite_eq' (Finset.range (n + 1)) 0 fun _ => a * x ^ n]
  rw [Finset.sum_ite_eq' (Finset.range (n + 1)) n fun _ => b]
  simp [Nat.lt_succ_self, Nat.pos_of_ne_zero hn]

/-- Claim C3.  For a positive integer `n` and positive amount `X`, the
payment stream of -100 at time 0 and `X` at time `n` has, among the real
roots returned by `irr()`, a rate `i` with `100 * (1+i)^n = X`. -/
theorem claim_C3 (n : ℕ) (X : ℝ) (hn : 1 ≤ n) (hX : 0 < X) :
    ∃ i ∈ irrSet [0, n] [-100, X], 100 * (1 + i) ^ n = X := by
  have hn0 : n ≠ 0 := Nat.one_le_iff_ne_zero.mp hn
  have hX100 : (0 : ℝ) < X / 100 := by positivity
  refine ⟨(X / 100) ^ ((n : ℝ)⁻¹) - 1, ?_, ?_⟩
  · show eqValuePoly [0, n] [-100, X] (1 + ((X / 100) ^ ((n : ℝ)⁻¹) - 1)) = 0
    rw [eqValuePoly_pair n hn0]
    have h1 : 1 + ((X / 100) ^ ((n : ℝ)⁻¹) - 1) = (X / 100) ^ ((n : ℝ)⁻¹) := by ring
    rw [h1, ← Real.rpow_natCast ((X / 100) ^ ((n : ℝ)⁻¹)) n,
      ← Real.rpow_mul hX100.le, inv_mul_cancel₀ (by exact_mod_cast hn0), Real.rpow_one]
    field_simp
    ring
  · have h1 : 1 + ((X / 100) ^ ((n : ℝ)⁻¹) - 1) = (X / 100) ^ ((n : ℝ)⁻¹) := by ring
    rw [h1, ← Real.rpow_natCast ((X / 100) ^ ((n : ℝ)⁻¹)) n,
      ← Real.rpow_mul hX100.le, inv_mul_cancel₀ (by exact_mod_cast hn0), Real.rpow_one]
    field_simp

/-- Claim C3 witness: the stream [-100 at 0, 121 at 2] yields an irr root
`i` with `100 (1+i)^2 = 121`. -/
theorem claim_C3_witness :
    ∃ i ∈ irrSet [0, 2] [-100, 121], 100 * (1 + i) ^ 2 = 121 :=
  claim_C3 2 121 (by norm_num) (by norm_num)

/-- Python's built-in `round(x, 5)`, as used by `Annuity.pv`
(`round(i - g, 5) != 0`): round half to even at the fifth decimal. -/
noncomputable def roundHalfEven (x : ℝ) : ℤ :=
  if x - ⌊x⌋ = 1 / 2 then (if Even ⌊x⌋ then ⌊x⌋ else ⌊x⌋ + 1) else round x

/-- `round(x, 5)` on a real: round `x * 10^5` half to even, scale back. -/
noncomputable def pyRound5 (x : ℝ) : ℝ := (roundHalfEven (x * 100000) : ℝ) / 100000

lemma roundHalfEven_eq_zero {x : ℝ} (h : |x| < 1 / 2) : roundHalfEven x = 0 := by
  rw [abs_lt] at h
  have hr : round x = 0 := by
    rw [round_eq_zero_iff]
    exact Set.mem_Ico.mpr ⟨by linarith [h.1], h.2⟩
  have hnotie : ¬(x - (⌊x⌋ : ℝ) = 1 / 2) := by
    intro htie
    have h1 : (-1 : ℝ) < (⌊x⌋ : ℝ) := by linarith [h.1]
    have h2 : ((⌊x⌋ : ℝ)) < 0 := by linarith [h.2]
    have h1x : (-1 : ℤ) < ⌊x⌋ := by exact_mod_cast h1
    have h2x : ⌊x⌋ < 0 := by exact_mod_cast h2
    omega
  unfold roundHalfEven
  rw [if_neg hnotie, hr]

lemma pyRound5_eq_zero {x : ℝ} (h : |x| < 1 / 200000) : pyRound5 x = 0 := by
  unfold pyRound5
  have habs : |x * 100000| < 1 / 2 := by
    rw [abs_mul, abs_of_nonneg (by norm_num : (0 : ℝ) ≤ 100000)]
    calc |x| * 100000 < 1 / 200000 * 100000 := by
          exact mul_lt_mul_of_pos_right h (by norm_num)
      _ = 1 / 2 := by norm_num
  rw [roundHalfEven_eq_zero habs]
  simp

lemma pyRound5_zero : pyRound5 0 = 0 := by
  have : |(0 : ℝ)| < 1 / 200000 := by norm_num
  exact pyRound5_eq_zero this

lemma ne_zero_of_pyRound5_ne_zero {x : ℝ} (h : pyRound5 x ≠ 0) : x ≠ 0 := by
  intro hx
  exact h (hx ▸ pyRound5_zero)

@[simp] lemma untopZero_coe_nat (k : ℕ) : WithTop.untop' 0 ((k : ℕ) : WithTop ℕ) = k := rfl

@[simp] lemma untopZero_coe_real (x : ℝ) : WithTop.untop' 0 ((x : ℝ) : WithTop ℝ) = x := rfl

@[simp] lemma untopZero_natCast_real (k : ℕ) : WithTop.untop' 0 ((k : ℕ) : WithTop ℝ) = (k : ℝ) := rfl

/-- The `imd` flag of annuity.py (any string other than `'immediate'` counts
as due for the time offset; the constructor finally rejects anything outside
`['immediate', 'due']`, so the two-valued type captures the accepted set). -/
inductive Imd where
  | immediate
  | due
  deriving DecidableEq, Repr

/-- The drop-or-balloon policy strings accepted by annuity.py. -/
inductive Drb where
  | drop
  | balloon
  deriving DecidableEq, Repr

/-- Modelled from the spec: `standardize_acc` is imported from tmval.growth
by value.py and annuity.py but is not present under src/.  Per the spec's
data model ("Canonical compound form = annual effective interest") it
standardizes a growth object to the canonical compound accumulation, so for
the level compound rates of these claims it returns the compound
accumulation of the annual effective rate `gr`:
`standardize_acc(gr).val(t) = (1+gr)**t`, with `is_compound`/`is_level`
true and `interest_rate = gr`. -/
noncomputable def standardize_acc (gr : ℝ) : Accumulation := CompoundAcc gr

/-- annuity.py `Annuity.get_r_pmt`: the fractional number of payment periods
implied by a loan, `i = standardize_acc(gr).val(period) - 1`,
`r = -log(1 - i*loan/amount) / log(1+i)`. -/
noncomputable def get_r_pmt (gr amount period loan : ℝ) : ℝ :=
  let i := (standardize_acc gr).val period - 1
  let r := -Real.log (1 - i * loan / amount) / Real.log (1 + i)
  r

/-- annuity.py `Annuity.get_drop`: `n = floor(r)`, `f = r - n`, and the drop
payment `(amount*((1+i)**f - 1)/i) * (1+i)**(1-f)`. -/
noncomputable def get_drop (gr amount period loan : ℝ) : ℝ :=
  let r := get_r_pmt gr amount period loan
  let f := r - (⌊r⌋ : ℝ)
  let i := (standardize_acc gr).val period - 1
  (amount * ((1 + i) ^ f - 1) / i) * (1 + i) ^ (1 - f)

/-- annuity.py `Annuity.get_balloon`:
`q + q*(((1+i)**f - 1)/i)*(1+i)**(-f)`. -/
noncomputable def get_balloon (gr amount period loan : ℝ) : ℝ :=
  let r := get_r_pmt gr amount period loan
  let f := r - (⌊r⌋ : ℝ)
  let i := (standardize_acc gr).val period - 1
  amount + amount * (((1 + i) ^ f - 1) / i) * (1 + i) ^ (-f)

/-- annuity.py `olb_r` (retrospective outstanding loan balance),
`max(loan*acc.val(t) - ann.sv(), 0)`: the source prices the level annuity
`Annuity(period, term=t, amount=q, gr)` whose `sv()` takes its closed-form
level branch `q*((1+gr)**t - 1)/((1+gr)**period - 1)` for the level compound
rates modelled here; that closed form is inlined. -/
noncomputable def olb_r (loan q period gr t : ℝ) : ℝ :=
  max (loan * (1 + gr) ^ t - q * ((1 + gr) ^ t - 1) / ((1 + gr) ^ period - 1)) 0

/-- The constructor arguments of annuity.py `Annuity.__init__` in the
modelled sub-universe: a scalar payment `amount`, no explicit `times` list,
no reinvestment rate, a scalar `aprog` (so `mprog = 1`), and a growth object
already standardized to the annual effective rate `gr`.  Python's possibly
infinite floats for `term` and `n` are modelled as `WithTop` values. -/
structure AnnuitySpec where
  gr : ℝ
  amount : ℝ
  period : ℝ
  term : Option (WithTop ℝ)
  n : Option (WithTop ℕ)
  gprog : ℝ
  aprog : ℝ
  deferral : ℝ
  imd : Imd
  loan : Option ℝ
  drb : Option Drb

/-- The state of a constructed annuity: the materialized schedule plus the
bookkeeping attributes that `pv`/`sv` read. -/
structure Annuity where
  amounts : List ℝ
  times : List ℝ
  n_payments : WithTop ℕ
  term : WithTop ℝ
  period : ℝ
  amount : ℝ
  gprog : ℝ
  aprog : ℝ
  mprog : ℝ
  imd : Imd
  gr : ℝ
  deferral : ℝ
  is_level_pmt : Bool
  drb_pmt : Option ℝ
  perp : Bool

/-- annuity.py `Annuity.__init__` lines 152-155: the continuous loan term
`log(1 - loan/amount * dt) / (-dt)` with `dt` the force of interest of the
standardized rate; a missing loan raises in the arithmetic. -/
noncomputable def resolveContinuousLoan (s : AnnuitySpec) : Except String (WithTop ℝ × WithTop ℝ) :=
  match s.loan with
  | none => .error "TypeError: unsupported operand type(s) for /: 'NoneType' and 'float'"
  | some L =>
    let dt := Real.log (1 + s.gr)
    .ok (((Real.log (1 - L / s.amount * dt) / (-dt) : ℝ) : WithTop ℝ), ⊤)

/-- annuity.py `Annuity.__init__` lines 156-159 (loan-style term inference,
reached when `term` is absent and `n` is falsy and `period != 0`):
`r = get_r_pmt(gr)` (raising if no loan was given), then `r` is rounded up
for a drop policy and down otherwise, and `term = r * period`. -/
noncomputable def resolveLoanStyle (s : AnnuitySpec) : Except String (WithTop ℝ × WithTop ℝ) :=
  match s.loan with
  | none => .error "TypeError: unsupported operand type(s) for *: 'float' and 'NoneType'"
  | some L =>
    let r0 := get_r_pmt s.gr s.amount s.period L
    let rI : ℝ := if s.drb = some .drop then (⌈r0⌉ : ℝ) else (⌊r0⌋ : ℝ)
    .ok (((rI * s.period : ℝ) : WithTop ℝ), ((rI : ℝ) : WithTop ℝ))

/-- annuity.py `Annuity.__init__` lines 141-164: resolution of the term and
of the raw payment-period count `r`.  The float products/quotients
`n * period` and `term / period` on possibly infinite operands are modelled
for the positive periods of the claims (an infinite operand with a
non-positive period would give `-inf`/`nan` in Python).  A supplied `n == 0`
is falsy in Python (`if self.n_payments:`) and falls through to the branches
below the `n` case, exactly as a missing `n` does. -/
noncomputable def resolveTermR (s : AnnuitySpec) : Except String (WithTop ℝ × WithTop ℝ) :=
  match s.term with
  | some T =>
    if s.period = 0 then .ok (T, ⊤)
    else if T = ⊤ then .ok (⊤, ⊤)
    else .ok (T, ((T.untop' 0 / s.period : ℝ) : WithTop ℝ))
  | none =>
    if s.n ≠ none ∧ s.n ≠ some ((0 : ℕ) : WithTop ℕ) then
      let v := (s.n.getD 0)
      let termR : WithTop ℝ :=
        if v = ⊤ then ⊤ else (((v.untop' 0 : ℕ) : ℝ) * s.period : ℝ)
      let r : WithTop ℝ :=
        match s.loan with
        | none => if v = ⊤ then ⊤ else (((v.untop' 0 : ℕ) : ℝ) : WithTop ℝ)
        | some L =>
          if v = ⊤ then ⊤
          else ((max (get_r_pmt s.gr s.amount s.period L) ((v.untop' 0 : ℕ) : ℝ) : ℝ) : WithTop ℝ)
      .ok (termR, r)
    else if s.period = 0 then resolveContinuousLoan s
    else resolveLoanStyle s

/-- annuity.py lines 278-295, the final re-classification of a scalar-amount
schedule as level: a level flag when there is no progression and no
drop/balloon payment, otherwise the `amounts[1:] == amounts[:-1]` constancy
test. -/
noncomputable def levelFlag (gprog aprog : ℝ) (drb_pmt : Option ℝ) (amounts : List ℝ) : Bool :=
  if gprog = 0 ∧ aprog = 0 ∧ drb_pmt = none then true
  else if gprog ≠ 0 ∨ aprog ≠ 0 then false
  else if amounts.tail = amounts.dropLast then true
  else false

/-- annuity.py lines 166-189 (perpetuity branch): the payment stream is two
Python generator functions, never materialized into lists; only the
bookkeeping attributes are modelled here.  Note that no validation of the
`drb` argument occurs on this path: `drb_pmt` stays `None`. -/
noncomputable def perpBuild (s : AnnuitySpec) (termR : WithTop ℝ) : Annuity :=
  ⟨[], [], ⊤, termR, s.period, s.amount, s.gprog, s.aprog, 1, s.imd, s.gr, s.deferral,
    if s.gprog = 0 then true else false, none, true⟩

/-- annuity.py lines 191-205 (continuously paying branch, `period == 0`) for
a scalar amount: empty discrete schedule, infinitely many payments, level. -/
noncomputable def contBuild (s : AnnuitySpec) (termR : WithTop ℝ) : Annuity :=
  ⟨[], [], ⊤, termR, s.period, s.amount, s.gprog, s.aprog, 1, s.imd, s.gr, s.deferral,
    true, none, false⟩

/-- annuity.py lines 206-297 (finite discrete branch) for a scalar amount:
resolve the payment count and fractional part `f`, build the level /
geometric / arithmetic schedule, shift for deferral, then apply the
drop/balloon adjustment when `0 < f < 1` (or the retrospective-balance
balloon when `1 <= f`), and finally re-classify levelness.  The modelled
domain has `1 <= n` whenever `n` is supplied together with `r > n` (Python
would build an empty or negative-range schedule otherwise). -/
noncomputable def discreteBuild (s : AnnuitySpec) (termR r : WithTop ℝ) : Except String Annuity :=
  let T : ℝ := termR.untop' 0
  let imdInd : ℝ := if s.imd = .immediate then 1 else 0
  let nf : Except String (ℕ × ℝ) :=
    match s.n with
    | none =>
      if s.term ≠ none then .ok ((⌊T / s.period⌋).toNat, 0)
      else
        match s.loan with
        | some L =>
          let rp := get_r_pmt s.gr s.amount s.period L
          .ok ((⌊rp⌋).toNat, rp - (⌊rp⌋ : ℝ))
        | none => .error "TypeError: unsupported operand type(s) for *: 'float' and 'NoneType'"
    | some v =>
      let nv : ℕ := v.untop' 0
      let rv : ℝ := r.untop' 0
      if (nv : ℝ) < rv then .ok (nv - 1, rv - ((nv : ℝ) - 1))
      else .ok (nv, 0)
  match nf with
  | .error e => .error e
  | .ok (np, f) =>
    let amounts0 := (List.range np).map fun (x : ℕ) =>
      s.amount * (1 + s.gprog) ^ x + s.aprog * ((⌊(x : ℝ) * 1⌋ : ℤ) : ℝ)
    let times0 := (List.range np).map fun (x : ℕ) => s.period * ((x : ℝ) + imdInd)
    let times1 := if 0 < s.deferral then times0.map (· + s.deferral) else times0
    if 0 < f ∧ f < 1 then
      -- this branch only arises on the loan-style path, where loan is present
      let L := s.loan.getD 0
      match s.drb with
      | some .balloon =>
        let b := get_balloon s.gr s.amount s.period L
        -- `amounts[-1] = self.drb_pmt` raises IndexError on an empty schedule
        if amounts0 = [] then .error "IndexError: list assignment index out of range"
        else
          .ok ⟨amounts0.dropLast ++ [b], times1, (np : WithTop ℕ), termR, s.period, s.amount,
            s.gprog, s.aprog, 1, s.imd, s.gr, s.deferral,
            levelFlag s.gprog s.aprog (some b) (amounts0.dropLast ++ [b]), some b, false⟩
      | some .drop =>
        let dp := get_drop s.gr s.amount s.period L
        .ok ⟨amounts0 ++ [dp], times1 ++ [T], ((np + 1 : ℕ) : WithTop ℕ), termR, s.period,
          s.amount, s.gprog, s.aprog, 1, s.imd, s.gr, s.deferral,
          levelFlag s.gprog s.aprog (some dp) (amounts0 ++ [dp]), some dp, false⟩
      | none =>
        .ok ⟨amounts0, times1, (np : WithTop ℕ), termR, s.period, s.amount, s.gprog, s.aprog,
          1, s.imd, s.gr, s.deferral, levelFlag s.gprog s.aprog none amounts0, none, false⟩
    else if 1 ≤ f then
      match s.loan with
      | none => .error "TypeError: unsupported operand type(s) for *: 'float' and 'NoneType'"
      | some L =>
        let b := s.amount + olb_r L s.amount s.period s.gr T
        .ok ⟨amounts0 ++ [b], times1 ++ [T], (np : WithTop ℕ), termR, s.period, s.amount,
          s.gprog, s.aprog, 1, s.imd, s.gr, s.deferral,
          levelFlag s.gprog s.aprog (some b) (amounts0 ++ [b]), some b, false⟩
    else
      .ok ⟨amounts0, times1, (np : WithTop ℕ), termR, s.period, s.amount, s.gprog, s.aprog,
        1, s.imd, s.gr, s.deferral, levelFlag s.gprog s.aprog none amounts0, none, false⟩

/-- annuity.py `Annuity.__init__` for the modelled sub-universe: term/`r`
resolution, then the perpetuity test `term == inf or n_payments == inf`,
then the continuous (`period == 0`) or finite discrete build. -/
noncomputable def annuityInit (s : AnnuitySpec) : Except String Annuity :=
  match resolveTermR s with
  | .error e => .error e
  | .ok (termR, r) =>
    if termR = ⊤ ∨ s.n = some ⊤ then .ok (perpBuild s termR)
    else if s.period = 0 then .ok (contBuild s termR)
    else discreteBuild s termR r

/-- annuity.py `Annuity.get_delta`: the bound rate converted to Force of
Interest, `log(1 + gr)` for the annual effective rate `gr`. -/
noncomputable def Annuity.get_delta (a : Annuity) : ℝ := Real.log (1 + a.gr)

/-- annuity.py `Annuity.abar_angln`: `amount*(1 - exp(-δ·term))/δ`. -/
noncomputable def Annuity.abar_angln (a : Annuity) : ℝ :=
  a.amount * (1 - Real.exp (-a.get_delta * a.term.untop' 0)) / a.get_delta

/-- annuity.py `Annuity.ibar_abar_angln`. -/
noncomputable def Annuity.ibar_abar_angln (a : Annuity) : ℝ :=
  (a.abar_angln - a.term.untop' 0 * Real.exp (-a.get_delta * a.term.untop' 0)) / a.get_delta

/-- The `Payments` object underlying an `Annuity`: `Payments.__init__` binds
the growth object through `set_accumulation`, i.e. the (spec-modelled)
`standardize_acc` of the level compound rate. -/
noncomputable def Annuity.toPayments (a : Annuity) : Payments :=
  ⟨a.amounts, a.times, standardize_acc a.gr⟩

/-- annuity.py `Annuity.pv` for the modelled sub-universe: a scalar payment
amount (not Callable), a level compound growth rate (so the branch guard
`isinstance(self.gr, Accumulation) and self.gr.is_level` holds), and no
TieredTime rate (so that perpetuity branch is dead and the fall-through goes
to the generic `self.npv()`).  The npv fall-through sets `skip_due`, so the
immediate/due one-period shift is not applied there; the deferral discount
is applied in every case.  The second component of `core` records
`skip_due`. -/
noncomputable def Annuity.pv (a : Annuity) : ℝ :=
  let i := (standardize_acc a.gr).val a.period - 1
  let g := a.gprog
  let core : ℝ × Bool :=
    if a.is_level_pmt = true ∨ g ≠ 0 then
      if a.perp then
        if a.aprog ≠ 0 then (a.amount / i + a.aprog / i ^ 2, false)
        else (a.amount / ((standardize_acc a.gr).val a.period - 1), false)
      else
        if pyRound5 (i - g) ≠ 0 then
          (a.amount * ((1 - ((1 + g) / (1 + i)) ^ (a.n_payments.untop' 0 : ℕ)) / (i - g)), false)
        else if a.period = 0 then (a.abar_angln, false)
        else (((a.n_payments.untop' 0 : ℕ) : ℝ) * a.amount * (1 + i)⁻¹, false)
    else if a.aprog ≠ 0 ∧ a.mprog = 0 then
      if a.period = 0 then (a.ibar_abar_angln, false)
      else
        let n : ℕ := a.n_payments.untop' 0
        let a_n := (1 - (1 + i) ^ (-(n : ℤ))) / i
        (a.amount * a_n + a.aprog / i * (a_n - (n : ℝ) * (1 + i) ^ (-(n : ℤ))), false)
    else
      (a.toPayments.npv, true)
  let pv1 := if a.imd = .due ∧ core.2 = false then core.1 * (1 + i) else core.1
  if 0 < a.deferral then pv1 * (standardize_acc a.gr).discount_func a.deferral 1 else pv1

lemma list_range_map_sum (n : ℕ) (f : ℕ → ℝ) :
    ((List.range n).map f).sum = ∑ i ∈ Finset.range n, f i := by
  induction n with
  | zero => simp
  | succ m ih =>
    rw [List.range_succ, List.map_append, List.sum_append, Finset.sum_range_succ, ih]
    simp

/-- The annuity specification "amount + number of payments + period", the
plain way to request a level (`g = 0`) or geometric annuity certain. -/
noncomputable def nSpec (gr q period g : ℝ) (k : ℕ) (imd : Imd) : AnnuitySpec :=
  ⟨gr, q, period, none, some ((k : ℕ) : WithTop ℕ), g, 0, 0, imd, none, none⟩

lemma annuityInit_nSpec (gr q period g : ℝ) (k : ℕ) (imd : Imd)
    (hk : k ≠ 0) (hp : period ≠ 0) :
    annuityInit (nSpec gr q period g k imd) =
      .ok ⟨(List.range k).map (fun (x : ℕ) => q * (1 + g) ^ x + 0 * ((⌊(x : ℝ) * 1⌋ : ℤ) : ℝ)),
        (List.range k).map (fun (x : ℕ) => period * ((x : ℝ) + (if imd = .immediate then 1 else 0))),
        ((k : ℕ) : WithTop ℕ), (((k : ℝ) * period : ℝ) : WithTop ℝ), period, q, g, 0, 1, imd,
        gr, 0, levelFlag g 0 none ((List.range k).map
          (fun (x : ℕ) => q * (1 + g) ^ x + 0 * ((⌊(x : ℝ) * 1⌋ : ℤ) : ℝ))), none, false⟩ := by
  have hkW : ((k : ℕ) : WithTop ℕ) ≠ ((0 : ℕ) : WithTop ℕ) := by
    simpa using hk
  simp [annuityInit, nSpec, resolveTermR, discreteBuild, hkW, hk, hp, ← WithTop.coe_mul]

lemma levelFlag_nodrb (g a : ℝ) (l : List ℝ) (ha : a = 0) :
    levelFlag g a none l = if g = 0 then true else false := by
  subst ha
  unfold levelFlag
  by_cases hg : g = 0
  · rw [if_pos ⟨hg, rfl, rfl⟩, if_pos hg]
  · rw [if_neg (by simp [hg]), if_pos (Or.inl hg), if_neg hg]

lemma pv_nSpec_formula (gr q period g : ℝ) (k : ℕ) (imd : Imd) (hk : k ≠ 0)
    (hp : period ≠ 0) (ann : Annuity)
    (hmk : annuityInit (nSpec gr q period g k imd) = .ok ann)
    (hround : pyRound5 ((1 + gr) ^ period - 1 - g) ≠ 0) :
    ann.pv = (q * ((1 - ((1 + g) / (1 + ((1 + gr) ^ period - 1))) ^ k) /
        ((1 + gr) ^ period - 1 - g))) *
      (if imd = Imd.due then 1 + ((1 + gr) ^ period - 1) else 1) := by
  rw [annuityInit_nSpec gr q period g k imd hk hp] at hmk
  have hann := (Except.ok.injEq _ _).mp hmk
  subst hann
  unfold Annuity.pv
  simp only [standardize_acc, CompoundAcc, Accumulation.discount_func]
  rw [levelFlag_nodrb g 0 _ rfl]
  by_cases hg : g = 0
  · subst hg
    rw [sub_zero] at hround
    cases imd <;> simp [hround]
  · cases imd <;> simp [hg, hround]

lemma pv_nSpec_limiting (gr q period g : ℝ) (k : ℕ) (imd : Imd) (hk : k ≠ 0)
    (hp : period ≠ 0) (ann : Annuity)
    (hmk : annuityInit (nSpec gr q period g k imd) = .ok ann)
    (hround : pyRound5 ((1 + gr) ^ period - 1 - g) = 0) :
    ann.pv = ((k : ℝ) * q * (1 + ((1 + gr) ^ period - 1))⁻¹) *
      (if imd = Imd.due then 1 + ((1 + gr) ^ period - 1) else 1) := by
  rw [annuityInit_nSpec gr q period g k imd hk hp] at hmk
  have hann := (Except.ok.injEq _ _).mp hmk
  subst hann
  unfold Annuity.pv
  simp only [standardize_acc, CompoundAcc, Accumulation.discount_func]
  rw [levelFlag_nodrb g 0 _ rfl]
  by_cases hg : g = 0
  · subst hg
    rw [sub_zero] at hround
    cases imd <;> simp [hround, hp]
  · cases imd <;> simp [hg, hround, hp]

lemma npv_nSpec (gr q period g : ℝ) (k : ℕ) (imd : Imd) (hk : k ≠ 0) (hp : period ≠ 0)
    (ann : Annuity) (hmk : annuityInit (nSpec gr q period g k imd) = .ok ann) :
    ann.toPayments.npv = ∑ x ∈ Finset.range k,
      (q * (1 + g) ^ x + 0 * ((⌊(x : ℝ) * 1⌋ : ℤ) : ℝ)) /
        (1 + gr) ^ (period * ((x : ℝ) + (if imd = Imd.immediate then 1 else 0))) := by
  rw [annuityInit_nSpec gr q period g k imd hk hp] at hmk
  have hann := (Except.ok.injEq _ _).mp hmk
  subst hann
  unfold Annuity.toPayments Payments.npv
  simp only [standardize_acc, CompoundAcc, Accumulation.discount_func]
  rw [List.zip_map']
  rw [List.map_map]
  exact list_range_map_sum k _

/-- Claim C4 (amended).  For an annuity with level or pure-geometric payments
(ratio `1+g`) under a level compound rate with per-period effective rate
`i = (1+gr)^period - 1`: `pv()` returns the closed-form geometric-series
value `amount*(1-((1+g)/(1+i))^n)/(i-g)` (times `1+i` when due) exactly when
`i - g` is nonzero AFTER rounding to five decimals — the source branches on
`round(i - g, 5) != 0`, not on `i != g` — and the limiting branch
`n*amount/(1+i)` (times `1+i` when due) whenever `i - g` rounds to zero,
even if `i` and `g` differ. -/
theorem claim_C4 (gr q period g : ℝ) (k : ℕ) (imd : Imd) (hk : k ≠ 0) (hp : period ≠ 0)
    (ann : Annuity) (hmk : annuityInit (nSpec gr q period g k imd) = .ok ann) :
    (pyRound5 ((1 + gr) ^ period - 1 - g) ≠ 0 →
      ann.pv = (q * ((1 - ((1 + g) / (1 + ((1 + gr) ^ period - 1))) ^ k) /
          ((1 + gr) ^ period - 1 - g))) *
        (if imd = Imd.due then 1 + ((1 + gr) ^ period - 1) else 1)) ∧
    (pyRound5 ((1 + gr) ^ period - 1 - g) = 0 →
      ann.pv = ((k : ℝ) * q * (1 + ((1 + gr) ^ period - 1))⁻¹) *
        (if imd = Imd.due then 1 + ((1 + gr) ^ period - 1) else 1)) :=
  ⟨fun h => pv_nSpec_formula gr q period g k imd hk hp ann hmk h,
   fun h => pv_nSpec_limiting gr q period g k imd hk hp ann hmk h⟩

/-- Claim C4 counterexample to the claim as stated: with annual effective
rate 5.0001% and growth ratio g = 5%, the per-period rate differs from `g`
(`i - g = 0.000001`), yet `round(i-g, 5) == 0`, so `pv()` takes the limiting
branch and does NOT return the geometric-series formula the claim
prescribes for `i != g`. -/
theorem claim_C4_counterexample :
    ∃ ann : Annuity,
      annuityInit (nSpec 0.050001 1 1 0.05 2 Imd.immediate) = .ok ann ∧
      (1 + (0.050001 : ℝ)) ^ (1 : ℝ) - 1 ≠ 0.05 ∧
      ann.pv ≠ (1 * ((1 - ((1 + 0.05) / (1 + ((1 + (0.050001 : ℝ)) ^ (1 : ℝ) - 1))) ^ 2) /
        ((1 + (0.050001 : ℝ)) ^ (1 : ℝ) - 1 - 0.05))) *
        (if Imd.immediate = Imd.due then 1 + ((1 + (0.050001 : ℝ)) ^ (1 : ℝ) - 1) else 1) := by
  refine ⟨_, annuityInit_nSpec 0.050001 1 1 0.05 2 Imd.immediate (by norm_num) (by norm_num),
    ?_, ?_⟩
  · rw [Real.rpow_one]
    norm_num
  · have hround : pyRound5 ((1 + (0.050001 : ℝ)) ^ (1 : ℝ) - 1 - 0.05) = 0 := by
      rw [Real.rpow_one]
      apply pyRound5_eq_zero
      rw [show (1 + (0.050001 : ℝ) - 1 - 0.05) = 0.000001 by norm_num]
      rw [abs_of_pos (by norm_num)]
      norm_num
    rw [pv_nSpec_limiting 0.050001 1 1 0.05 2 Imd.immediate (by norm_num) (by norm_num) _
      (annuityInit_nSpec 0.050001 1 1 0.05 2 Imd.immediate (by norm_num) (by norm_num)) hround]
    rw [if_neg (show ¬(Imd.immediate = Imd.due) from fun h => Imd.noConfusion h)]
    rw [Real.rpow_one]
    norm_num

/-- Claim C4 witness: a level annuity (g = 0) at 5% for two periods, where
`round(i - g, 5)` is nonzero and the geometric-series branch applies. -/
theorem claim_C4_witness :
    ∃ ann : Annuity, annuityInit (nSpec 0.05 1 1 0 2 Imd.immediate) = .ok ann ∧
      ((pyRound5 ((1 + (0.05 : ℝ)) ^ (1 : ℝ) - 1 - 0) ≠ 0 →
        ann.pv = (1 * ((1 - ((1 + 0) / (1 + ((1 + (0.05 : ℝ)) ^ (1 : ℝ) - 1))) ^ 2) /
            ((1 + (0.05 : ℝ)) ^ (1 : ℝ) - 1 - 0))) *
          (if Imd.immediate = Imd.due then 1 + ((1 + (0.05 : ℝ)) ^ (1 : ℝ) - 1) else 1)) ∧
       (pyRound5 ((1 + (0.05 : ℝ)) ^ (1 : ℝ) - 1 - 0) = 0 →
        ann.pv = ((2 : ℕ) * 1 * (1 + ((1 + (0.05 : ℝ)) ^ (1 : ℝ) - 1))⁻¹) *
          (if Imd.immediate = Imd.due then 1 + ((1 + (0.05 : ℝ)) ^ (1 : ℝ) - 1) else 1))) :=
  ⟨_, annuityInit_nSpec 0.05 1 1 0 2 Imd.immediate (by norm_num) (by norm_num),
    claim_C4 0.05 1 1 0 2 Imd.immediate (by norm_num) (by norm_num) _
      (annuityInit_nSpec 0.05 1 1 0 2 Imd.immediate (by norm_num) (by norm_num))⟩

lemma geom_pv (V : ℝ) (hV0 : V ≠ 0) (hV1 : V ≠ 1) (k : ℕ) :
    ∑ x ∈ Finset.range k, (V⁻¹) ^ (x + 1) = (1 - (V⁻¹) ^ k) / (V - 1) := by
  induction k with
  | zero => simp
  | succ m ih =>
    rw [Finset.sum_range_succ, ih]
    have h1 : V - 1 ≠ 0 := sub_ne_zero.mpr hV1
    field_simp
    ring

/-- Claim C5 (amended).  For a level annuity-immediate (constant amount,
uniform period, finite term, level compound rate), the closed-form branch of
`Annuity.pv()` returns EXACTLY the per-payment discounted sum
`Payments.npv()` — in particular well within 1e-8 relative error — provided
the per-period rate `i` does not vanish under `round(i, 5)` (the source's
branch test).  When `0 < |i| < 0.5e-5` the limiting branch `n*amount/(1+i)`
is taken instead and the two values can differ by far more than 1e-8
relative error (see the counterexample). -/
theorem claim_C5 (gr q period : ℝ) (k : ℕ) (hk : k ≠ 0) (hp : period ≠ 0) (hgr : 0 < 1 + gr)
    (ann : Annuity) (hmk : annuityInit (nSpec gr q period 0 k Imd.immediate) = .ok ann)
    (hi : pyRound5 ((1 + gr) ^ period - 1) ≠ 0) :
    ann.pv = ann.toPayments.npv := by
  have hpv := pv_nSpec_formula gr q period 0 k Imd.immediate hk hp ann hmk (by rwa [sub_zero])
  have hnpv := npv_nSpec gr q period 0 k Imd.immediate hk hp ann hmk
  rw [hpv, hnpv]
  have hine : (1 + gr) ^ period - 1 ≠ 0 := ne_zero_of_pyRound5_ne_zero hi
  have hVpos : (0 : ℝ) < (1 + gr) ^ period := Real.rpow_pos_of_pos hgr period
  have hVne1 : (1 + gr) ^ period ≠ 1 := fun h => hine (by rw [h]; ring)
  have hstep : ∀ x ∈ Finset.range k,
      (q * (1 + 0) ^ x + 0 * ((⌊(x : ℝ) * 1⌋ : ℤ) : ℝ)) /
          (1 + gr) ^ (period * ((x : ℝ) + (if Imd.immediate = Imd.immediate then 1 else 0))) =
        q * (((1 + gr) ^ period)⁻¹) ^ (x + 1) := by
    intro x _
    rw [if_pos rfl]
    rw [Real.rpow_mul hgr.le]
    rw [show ((x : ℝ) + 1) = ((x + 1 : ℕ) : ℝ) by push_cast; ring]
    rw [Real.rpow_natCast]
    rw [inv_pow]
    simp [div_eq_mul_inv]
  rw [Finset.sum_congr rfl hstep]
  rw [← Finset.mul_sum]
  rw [geom_pv ((1 + gr) ^ period) hVpos.ne' hVne1 k]
  rw [if_neg (show ¬(Imd.immediate = Imd.due) from fun h => Imd.noConfusion h)]
  rw [show (1 + (0 : ℝ)) / (1 + ((1 + gr) ^ period - 1)) = ((1 + gr) ^ period)⁻¹ by
    rw [show (1 : ℝ) + 0 = 1 by ring, show 1 + ((1 + gr) ^ period - 1) = (1 + gr) ^ period by ring,
      one_div]]
  rw [sub_zero, mul_one]

/-- Claim C5 counterexample to the claim as stated: for the level two-payment
annuity at the tiny rate i = 0.000004, `round(i, 5) == 0`, so `pv()` returns
the limiting value `n*amount/(1+i)`, which differs from `npv()` by a
relative error of about 2e-6 — far more than the claimed 1e-8. -/
theorem claim_C5_counterexample :
    ∃ ann : Annuity,
      annuityInit (nSpec 0.000004 1 1 0 2 Imd.immediate) = .ok ann ∧
      |ann.pv - ann.toPayments.npv| > 1e-8 * |ann.toPayments.npv| := by
  have hmk := annuityInit_nSpec 0.000004 1 1 0 2 Imd.immediate (by norm_num) (by norm_num)
  refine ⟨_, hmk, ?_⟩
  have hround : pyRound5 ((1 + (0.000004 : ℝ)) ^ (1 : ℝ) - 1 - 0) = 0 := by
    rw [Real.rpow_one]
    apply pyRound5_eq_zero
    rw [show (1 + (0.000004 : ℝ) - 1 - 0) = 0.000004 by norm_num, abs_of_pos (by norm_num)]
    norm_num
  have hpv := pv_nSpec_limiting 0.000004 1 1 0 2 Imd.immediate (by norm_num) (by norm_num) _
    hmk hround
  have hnpv := npv_nSpec 0.000004 1 1 0 2 Imd.immediate (by norm_num) (by norm_num) _ hmk
  rw [hpv, hnpv]
  rw [if_neg (show ¬(Imd.immediate = Imd.due) from fun h => Imd.noConfusion h)]
  norm_num [Finset.sum_range_succ, Real.rpow_one]
  rw [abs_of_pos (by norm_num : (0 : ℝ) < 125000250000 / 62500500001),
    abs_of_pos (by norm_num : (0 : ℝ) < 250000 / 62500500001)]
  norm_num

/-- Claim C5 witness: a level two-payment annuity at 5%, where the
closed-form branch and the generic npv agree exactly. -/
theorem claim_C5_witness :
    ∃ ann : Annuity, annuityInit (nSpec 0.05 1 1 0 2 Imd.immediate) = .ok ann ∧
      ann.pv = ann.toPayments.npv := by
  have hmk := annuityInit_nSpec 0.05 1 1 0 2 Imd.immediate (by norm_num) (by norm_num)
  refine ⟨_, hmk, ?_⟩
  apply claim_C5 0.05 1 1 2 (by norm_num) (by norm_num) (by norm_num) _ hmk
  rw [Real.rpow_one]
  unfold pyRound5 roundHalfEven
  norm_num [round_eq]

/-- The loan-style annuity specification: a loan amount, a level payment, a
period and a drop-or-balloon policy; the term and payment count are inferred
from the loan (annuity.py lines 156-159 and 212-216). -/
noncomputable def loanSpec (gr q period L : ℝ) (dr : Drb) : AnnuitySpec :=
  ⟨gr, q, period, none, none, 0, 0, 0, Imd.immediate, some L, some dr⟩

/-- The term/period annuity specification: an explicit finite term with the
payment count inferred as `floor(term / period)` (annuity.py lines 160-164
and 207-211). -/
noncomputable def termSpec (gr q period T : ℝ) (drb : Option Drb) : AnnuitySpec :=
  ⟨gr, q, period, some ((T : ℝ) : WithTop ℝ), none, 0, 0, 0, Imd.immediate, none, drb⟩

lemma annuityInit_termSpec (gr q period T : ℝ) (drb : Option Drb) (hp : period ≠ 0) :
    annuityInit (termSpec gr q period T drb) =
      .ok ⟨(List.range (⌊T / period⌋).toNat).map
            (fun (x : ℕ) => q * (1 + 0) ^ x + 0 * ((⌊(x : ℝ) * 1⌋ : ℤ) : ℝ)),
          (List.range (⌊T / period⌋).toNat).map (fun (x : ℕ) => period * ((x : ℝ) + 1)),
          (((⌊T / period⌋).toNat : ℕ) : WithTop ℕ), ((T : ℝ) : WithTop ℝ), period, q, 0, 0, 1,
          Imd.immediate, gr, 0,
          levelFlag 0 0 none ((List.range (⌊T / period⌋).toNat).map
            (fun (x : ℕ) => q * (1 + 0) ^ x + 0 * ((⌊(x : ℝ) * 1⌋ : ℤ) : ℝ))), none, false⟩ := by
  simp [annuityInit, termSpec, resolveTermR, discreteBuild, hp]

lemma annuityInit_loanSpec_int (gr q period L : ℝ) (dr : Drb) (hp : period ≠ 0)
    (hf : Int.fract (get_r_pmt gr q period L) = 0) :
    annuityInit (loanSpec gr q period L dr) =
      .ok ⟨(List.range (⌊get_r_pmt gr q period L⌋).toNat).map
            (fun (x : ℕ) => q * (1 + 0) ^ x + 0 * ((⌊(x : ℝ) * 1⌋ : ℤ) : ℝ)),
          (List.range (⌊get_r_pmt gr q period L⌋).toNat).map
            (fun (x : ℕ) => period * ((x : ℝ) + 1)),
          (((⌊get_r_pmt gr q period L⌋).toNat : ℕ) : WithTop ℕ),
          (((if dr = Drb.drop then (⌈get_r_pmt gr q period L⌉ : ℝ)
              else (⌊get_r_pmt gr q period L⌋ : ℝ)) * period : ℝ) : WithTop ℝ),
          period, q, 0, 0, 1, Imd.immediate, gr, 0,
          levelFlag 0 0 none ((List.range (⌊get_r_pmt gr q period L⌋).toNat).map
            (fun (x : ℕ) => q * (1 + 0) ^ x + 0 * ((⌊(x : ℝ) * 1⌋ : ℤ) : ℝ))), none, false⟩ := by
  have hf0 : get_r_pmt gr q period L - (⌊get_r_pmt gr q period L⌋ : ℝ) = 0 := hf
  simp [annuityInit, loanSpec, resolveTermR, resolveLoanStyle, discreteBuild, hp, hf0]

lemma annuityInit_loanSpec_drop (gr q period L : ℝ) (hp : period ≠ 0)
    (hf : 0 < Int.fract (get_r_pmt gr q period L)) :
    annuityInit (loanSpec gr q period L Drb.drop) =
      .ok ⟨((List.range (⌊get_r_pmt gr q period L⌋).toNat).map
            (fun (x : ℕ) => q * (1 + 0) ^ x + 0 * ((⌊(x : ℝ) * 1⌋ : ℤ) : ℝ))) ++
            [get_drop gr q period L],
          ((List.range (⌊get_r_pmt gr q period L⌋).toNat).map
            (fun (x : ℕ) => period * ((x : ℝ) + 1))) ++
            [(⌈get_r_pmt gr q period L⌉ : ℝ) * period],
          ((((⌊get_r_pmt gr q period L⌋).toNat + 1 : ℕ)) : WithTop ℕ),
          (((⌈get_r_pmt gr q period L⌉ : ℝ) * period : ℝ) : WithTop ℝ),
          period, q, 0, 0, 1, Imd.immediate, gr, 0,
          levelFlag 0 0 (some (get_drop gr q period L))
            (((List.range (⌊get_r_pmt gr q period L⌋).toNat).map
              (fun (x : ℕ) => q * (1 + 0) ^ x + 0 * ((⌊(x : ℝ) * 1⌋ : ℤ) : ℝ))) ++
              [get_drop gr q period L]),
          some (get_drop gr q period L), false⟩ := by
  have hf0 : 0 < get_r_pmt gr q period L - (⌊get_r_pmt gr q period L⌋ : ℝ) := hf
  have hf1 : get_r_pmt gr q period L - (⌊get_r_pmt gr q period L⌋ : ℝ) < 1 :=
    Int.fract_lt_one _
  simp [annuityInit, loanSpec, resolveTermR, resolveLoanStyle, discreteBuild, hp, hf, hf0, hf1,
    Int.fract_lt_one (get_r_pmt gr q period L), ← WithTop.coe_mul]

lemma annuityInit_loanSpec_balloon (gr q period L : ℝ) (hp : period ≠ 0)
    (hf : 0 < Int.fract (get_r_pmt gr q period L))
    (h1 : 1 ≤ ⌊get_r_pmt gr q period L⌋) :
    annuityInit (loanSpec gr q period L Drb.balloon) =
      .ok ⟨(((List.range (⌊get_r_pmt gr q period L⌋).toNat).map
            (fun (x : ℕ) => q * (1 + 0) ^ x + 0 * ((⌊(x : ℝ) * 1⌋ : ℤ) : ℝ))).dropLast) ++
            [get_balloon gr q period L],
          (List.range (⌊get_r_pmt gr q period L⌋).toNat).map
            (fun (x : ℕ) => period * ((x : ℝ) + 1)),
          ((((⌊get_r_pmt gr q period L⌋).toNat : ℕ)) : WithTop ℕ),
          (((⌊get_r_pmt gr q period L⌋ : ℝ) * period : ℝ) : WithTop ℝ),
          period, q, 0, 0, 1, Imd.immediate, gr, 0,
          levelFlag 0 0 (some (get_balloon gr q period L))
            ((((List.range (⌊get_r_pmt gr q period L⌋).toNat).map
              (fun (x : ℕ) => q * (1 + 0) ^ x + 0 * ((⌊(x : ℝ) * 1⌋ : ℤ) : ℝ))).dropLast) ++
              [get_balloon gr q period L]),
          some (get_balloon gr q period L), false⟩ := by
  have hf0 : 0 < get_r_pmt gr q period L - (⌊get_r_pmt gr q period L⌋ : ℝ) := hf
  have hf1 : get_r_pmt gr q period L - (⌊get_r_pmt gr q period L⌋ : ℝ) < 1 :=
    Int.fract_lt_one _
  have hn0 : (⌊get_r_pmt gr q period L⌋).toNat ≠ 0 := by omega
  simp [annuityInit, loanSpec, resolveTermR, resolveLoanStyle, discreteBuild, hp, hf, hf0, hf1,
    hn0, Int.fract_lt_one (get_r_pmt gr q period L), ← WithTop.coe_mul]

lemma annuityInit_loanSpec_balloon_empty (gr q period L : ℝ) (hp : period ≠ 0)
    (hf : 0 < Int.fract (get_r_pmt gr q period L))
    (h0 : ⌊get_r_pmt gr q period L⌋ ≤ 0) :
    annuityInit (loanSpec gr q period L Drb.balloon) =
      .error "IndexError: list assignment index out of range" := by
  have hf0 : 0 < get_r_pmt gr q period L - (⌊get_r_pmt gr q period L⌋ : ℝ) := hf
  have hf1 : get_r_pmt gr q period L - (⌊get_r_pmt gr q period L⌋ : ℝ) < 1 :=
    Int.fract_lt_one _
  have hn0 : (⌊get_r_pmt gr q period L⌋).toNat = 0 := by omega
  simp [annuityInit, loanSpec, resolveTermR, resolveLoanStyle, discreteBuild, hp, hf, hf0, hf1,
    hn0, Int.fract_lt_one (get_r_pmt gr q period L), ← WithTop.coe_mul]

lemma mem_level_amounts {q : ℝ} {n : ℕ} {a : ℝ}
    (ha : a ∈ (List.range n).map
      (fun (x : ℕ) => q * (1 + 0) ^ x + 0 * ((⌊(x : ℝ) * 1⌋ : ℤ) : ℝ))) : a = q := by
  simp at ha
  tauto

lemma get_drop_lt (gr q period L : ℝ) (hq : 0 < q) (hB : (1 : ℝ) < (1 + gr) ^ period)
    (hf : 0 < Int.fract (get_r_pmt gr q period L)) :
    get_drop gr q period L < q := by
  unfold get_drop standardize_acc CompoundAcc
  simp only
  set r := get_r_pmt gr q period L with hr
  set f := r - (⌊r⌋ : ℝ) with hfdef
  have hf0 : 0 < f := hf
  have hf1 : f < 1 := Int.fract_lt_one r
  set V := (1 + gr) ^ period with hV
  have hVpos : (0 : ℝ) < V := lt_trans one_pos hB
  have hiV : 1 + (V - 1) = V := by ring
  rw [hiV]
  have hu : 1 < V ^ f := (Real.one_lt_rpow_iff_of_pos hVpos).mpr (Or.inl ⟨hB, hf0⟩)
  have hw : 1 < V ^ (1 - f) := (Real.one_lt_rpow_iff_of_pos hVpos).mpr
    (Or.inl ⟨hB, by linarith⟩)
  have huw : V ^ f * V ^ (1 - f) = V := by
    rw [← Real.rpow_add hVpos]
    rw [show f + (1 - f) = 1 by ring, Real.rpow_one]
  have hi : 0 < V - 1 := by linarith
  have h1 : (V ^ f - 1) * V ^ (1 - f) = V - V ^ (1 - f) := by
    rw [sub_mul, one_mul, huw]
  have h2 : (V ^ f - 1) * V ^ (1 - f) < V - 1 := by
    rw [h1]
    linarith
  calc q * (V ^ f - 1) / (V - 1) * V ^ (1 - f)
      = q * ((V ^ f - 1) * V ^ (1 - f)) / (V - 1) := by ring
    _ < q := by
        rw [div_lt_iff₀ hi]
        exact (mul_lt_mul_left hq).mpr h2

lemma get_balloon_gt (gr q period L : ℝ) (hq : 0 < q) (hB : (1 : ℝ) < (1 + gr) ^ period)
    (hf : 0 < Int.fract (get_r_pmt gr q period L)) :
    q < get_balloon gr q period L := by
  unfold get_balloon standardize_acc CompoundAcc
  simp only
  set r := get_r_pmt gr q period L with hr
  set f := r - (⌊r⌋ : ℝ) with hfdef
  have hf0 : 0 < f := hf
  set V := (1 + gr) ^ period with hV
  have hVpos : (0 : ℝ) < V := lt_trans one_pos hB
  have hiV : 1 + (V - 1) = V := by ring
  rw [hiV]
  have hu : 1 < V ^ f := (Real.one_lt_rpow_iff_of_pos hVpos).mpr (Or.inl ⟨hB, hf0⟩)
  have hi : 0 < V - 1 := by linarith
  have hpos : 0 < q * ((V ^ f - 1) / (V - 1)) * V ^ (-f) := by
    apply mul_pos
    · apply mul_pos hq
      exact div_pos (by linarith) hi
    · exact Real.rpow_pos_of_pos hVpos _
  linarith

/-- Claim C7 (amended).  Under a level compound rate, a LOAN-STYLE annuity
with a requested drop/balloon policy behaves as the claim says: when the
implied fractional payment count `r = get_r_pmt(...)` is integral
(`Int.fract r = 0`, i.e. the implied term is exactly divisible by the
period), no drop or balloon payment is generated and every payment equals
the level amount; when `r` is fractional and at least one full payment fits
(`1 ≤ ⌊r⌋`), exactly one drop or balloon payment is generated, that final
payment differs from the level amount, and all earlier payments equal it.
Two caveats beyond the claim: a loan-style BALLOON whose fractional `r` is
below one (`⌊r⌋ ≤ 0`) builds an empty level schedule and the in-place final
payment assignment `amounts[-1] = ...` raises an IndexError instead; and a
TERM/PERIOD specification never generates a drop or balloon payment — even
when the term is NOT divisible by the period the schedule is silently
truncated to `floor(term/period)` level payments (the source sets `f = 0`
on that path), contrary to the claim as stated. -/
theorem claim_C7 :
    (∀ gr q period L : ℝ, ∀ dr : Drb, ∀ ann : Annuity, period ≠ 0 →
      annuityInit (loanSpec gr q period L dr) = .ok ann →
      Int.fract (get_r_pmt gr q period L) = 0 →
      ann.drb_pmt = none ∧ ∀ a ∈ ann.amounts, a = q) ∧
    (∀ gr q period L : ℝ, ∀ dr : Drb, ∀ ann : Annuity, period ≠ 0 → 0 < q →
      (1 : ℝ) < (1 + gr) ^ period →
      annuityInit (loanSpec gr q period L dr) = .ok ann →
      0 < Int.fract (get_r_pmt gr q period L) →
      1 ≤ ⌊get_r_pmt gr q period L⌋ →
      ∃ b, ann.drb_pmt = some b ∧ ann.amounts.getLast? = some b ∧ b ≠ q ∧
        ∀ a ∈ ann.amounts.dropLast, a = q) ∧
    (∀ gr q period L : ℝ, period ≠ 0 →
      0 < Int.fract (get_r_pmt gr q period L) →
      ⌊get_r_pmt gr q period L⌋ ≤ 0 →
      annuityInit (loanSpec gr q period L Drb.balloon) =
        .error "IndexError: list assignment index out of range") ∧
    (∀ gr q period T : ℝ, ∀ drb : Option Drb, ∀ ann : Annuity, period ≠ 0 →
      annuityInit (termSpec gr q period T drb) = .ok ann →
      ann.drb_pmt = none ∧ ∀ a ∈ ann.amounts, a = q) := by
  refine ⟨?_, ?_, ?_, ?_⟩
  · intro gr q period L dr ann hp hmk hf
    rw [annuityInit_loanSpec_int gr q period L dr hp hf] at hmk
    have hann := (Except.ok.injEq _ _).mp hmk
    subst hann
    exact ⟨rfl, fun a ha => mem_level_amounts ha⟩
  · intro gr q period L dr ann hp hq hB hmk hf h1
    cases dr with
    | drop =>
      rw [annuityInit_loanSpec_drop gr q period L hp hf] at hmk
      have hann := (Except.ok.injEq _ _).mp hmk
      subst hann
      refine ⟨get_drop gr q period L, rfl, ?_, ?_, ?_⟩
      · exact List.getLast?_concat _
      · exact ne_of_lt (get_drop_lt gr q period L hq hB hf)
      · intro a ha
        rw [List.dropLast_concat] at ha
        exact mem_level_amounts ha
    | balloon =>
      rw [annuityInit_loanSpec_balloon gr q period L hp hf h1] at hmk
      have hann := (Except.ok.injEq _ _).mp hmk
      subst hann
      refine ⟨get_balloon gr q period L, rfl, ?_, ?_, ?_⟩
      · exact List.getLast?_concat _
      · exact (get_balloon_gt gr q period L hq hB hf).ne'
      · intro a ha
        rw [List.dropLast_concat] at ha
        exact mem_level_amounts (List.dropLast_subset _ ha)
  · intro gr q period L hp hf h0
    exact annuityInit_loanSpec_balloon_empty gr q period L hp hf h0
  · intro gr q period T drb ann hp hmk
    rw [annuityInit_termSpec gr q period T drb hp] at hmk
    have hann := (Except.ok.injEq _ _).mp hmk
    subst hann
    exact ⟨rfl, fun a ha => mem_level_amounts ha⟩

/-- Claim C7 counterexample to the claim as stated: the annuity resolved
from the term/period specification term = 2.5, period = 1 (term NOT
divisible by the period) carries no drop or balloon payment at all — the
schedule is just the two level payments [1, 1] — whereas the claim demands
exactly one drop or balloon with a differing final payment. -/
theorem claim_C7_counterexample :
    ∃ ann : Annuity,
      annuityInit (termSpec 0.05 1 1 2.5 (some Drb.drop)) = .ok ann ∧
      Int.fract ((2.5 : ℝ) / 1) ≠ 0 ∧
      ann.drb_pmt = none ∧ ann.amounts = [1, 1] := by
  refine ⟨_, annuityInit_termSpec 0.05 1 1 2.5 (some Drb.drop) (by norm_num), ?_, rfl, ?_⟩
  · have hfl : (⌊(2.5 : ℝ) / 1⌋) = 2 := by norm_num
    rw [Int.fract, hfl]
    norm_num
  · have hfl : (⌊(2.5 : ℝ) / 1⌋) = 2 := by norm_num
    rw [hfl]
    norm_num [List.range_succ]
    rfl

/-- Claim C7 witness: a loan of 7/8 at a 100% annual rate with unit payments
implies exactly r = 3 payment periods, so the loan-style schedule has no
drop or balloon payment and every payment equals the level amount. -/
theorem claim_C7_witness :
    ∃ ann : Annuity, annuityInit (loanSpec 1 1 1 (7 / 8) Drb.drop) = .ok ann ∧
      ann.drb_pmt = none ∧ ∀ a ∈ ann.amounts, a = 1 := by
  have hr : get_r_pmt 1 1 1 (7 / 8) = 3 := by
    unfold get_r_pmt standardize_acc CompoundAcc
    simp only
    rw [Real.rpow_one]
    rw [show (1 : ℝ) - (1 + 1 - 1) * (7 / 8) / 1 = ((2 : ℝ) ^ (3 : ℕ))⁻¹ by norm_num]
    rw [show (1 : ℝ) + (1 + 1 - 1) = 2 by norm_num]
    rw [Real.log_inv, Real.log_pow]
    have h2 : Real.log 2 ≠ 0 := ne_of_gt (Real.log_pos (by norm_num))
    field_simp
  have hf : Int.fract (get_r_pmt 1 1 1 (7 / 8)) = 0 := by
    rw [hr]
    rw [Int.fract]
    norm_num
  have hmk := annuityInit_loanSpec_int 1 1 1 (7 / 8) Drb.drop (by norm_num) hf
  exact ⟨_, hmk, claim_C7.1 1 1 1 (7 / 8) Drb.drop _ (by norm_num) hmk hf⟩

/-- Claim C8 (amended).  Constructing an Annuity as a perpetuity — via an
infinite term or an infinite number of payments — while requesting any
drop/balloon policy is NOT rejected: the perpetuity branch of the
constructor performs no `drb` validation and simply ignores the request.
The perpetuity never carries a drop or balloon payment (`drb_pmt` stays
`None`), which is the half of the claim the code does satisfy. -/
theorem claim_C8 (gr q period g aprog deferral : ℝ) (imd : Imd) (drb : Option Drb)
    (loan : Option ℝ) (n : Option (WithTop ℕ)) :
    (∃ ann : Annuity,
      annuityInit ⟨gr, q, period, some ⊤, n, g, aprog, deferral, imd, loan, drb⟩ = .ok ann ∧
        ann.drb_pmt = none ∧ ann.perp = true) ∧
    (∃ ann : Annuity,
      annuityInit ⟨gr, q, period, none, some ⊤, g, aprog, deferral, imd, loan, drb⟩ = .ok ann ∧
        ann.drb_pmt = none ∧ ann.perp = true) := by
  constructor
  · have h1 : annuityInit ⟨gr, q, period, some ⊤, n, g, aprog, deferral, imd, loan, drb⟩ =
        .ok (perpBuild ⟨gr, q, period, some ⊤, n, g, aprog, deferral, imd, loan, drb⟩ ⊤) := by
      unfold annuityInit resolveTermR
      by_cases hp0 : period = 0 <;> simp [hp0]
    exact ⟨_, h1, rfl, rfl⟩
  · have h1 : annuityInit ⟨gr, q, period, none, some ⊤, g, aprog, deferral, imd, loan, drb⟩ =
        .ok (perpBuild ⟨gr, q, period, none, some ⊤, g, aprog, deferral, imd, loan, drb⟩ ⊤) := by
      unfold annuityInit resolveTermR
      cases loan <;> simp
    exact ⟨_, h1, rfl, rfl⟩

/-- Claim C8 counterexample to the claim as stated: a perpetuity (infinite
term) requested together with a drop policy is constructed successfully —
no error is raised — with the policy silently ignored. -/
theorem claim_C8_counterexample :
    ∃ ann : Annuity,
      annuityInit ⟨0.05, 1, 1, some ⊤, none, 0, 0, 0, Imd.immediate, none, some Drb.drop⟩ =
        .ok ann ∧ ann.drb_pmt = none := by
  have h1 : annuityInit ⟨0.05, 1, 1, some ⊤, none, 0, 0, 0, Imd.immediate, none, some Drb.drop⟩ =
      .ok (perpBuild ⟨0.05, 1, 1, some ⊤, none, 0, 0, 0, Imd.immediate, none, some Drb.drop⟩ ⊤) := by
    unfold annuityInit resolveTermR
    norm_num
  exact ⟨_, h1, rfl⟩

end TmVal
